import Mathlib

/-! # Postal-code lookup race (`main.go`)

A shallow embedding of `main.go`: the input check of `main` (`isNumeric`), the
field mapping `getApiResponse`, the sequential part of `getCepData`, and the
interleavings of `main` with its two goroutines over the capacity-1 result
channel and the deadline context.

Go strings are embedded as Lean `String`s.  Every string that reaches the code
is valid UTF-8: the token stored by `fmt.Scanln`, the strings produced by
`encoding/json`, and the literals of the source.  `len(s)` is the number of
bytes of the UTF-8 encoding and `range s` walks the code points.
-/

namespace CepRace

/-! ## Decoded JSON values -/

/-- A value that `json.Unmarshal` stores in an `interface{}`: `nil`, `bool`,
`float64` (kept as its IEEE-754 binary64 bit pattern), `string`,
`[]interface{}` or `map[string]interface{}`. -/
inductive Value where
  | null
  | bool (b : Bool)
  | number (bits : Nat)
  | str (s : String)
  | array (items : List Value)
  | object (fields : List (String × Value))

/-- The dynamic type held by an `interface{}`. -/
inductive DynType where
  | nil
  | bool
  | float64
  | string
  | slice
  | map
  deriving DecidableEq, Repr

/-- Dynamic type of a decoded value. -/
def Value.dynType : Value → DynType
  | .null => .nil
  | .bool _ => .bool
  | .number _ => .float64
  | .str _ => .string
  | .array _ => .slice
  | .object _ => .map

/-- A Go `map[string]interface{}`: a finite list of bindings with pairwise
distinct keys. -/
structure GoMap where
  entries : List (String × Value)
  nodup : (entries.map Prod.fst).Nodup

/-- The builtin `len(data)`: the number of keys. -/
def GoMap.len (data : GoMap) : Nat := data.entries.length

/-- The comma-ok lookup `v, ok := data[key]`. -/
def GoMap.lookup (data : GoMap) (key : String) : Option Value :=
  data.entries.lookup key

/-- The index expression `data[key]`: the zero value `nil` for an absent
key. -/
def GoMap.index (data : GoMap) (key : String) : Value :=
  match data.lookup key with
  | some v => v
  | none => .null

/-! ## The common schema and the field mapping -/

/-- The struct `ApiResponse` (lines 18-24). -/
structure ApiResponse where
  API : String
  Logradouro : String
  Bairro : String
  Cidade : String
  Uf : String
  deriving DecidableEq, Repr

/-- The run-time panic of a failed `x.(string)`:
`interface conversion: interface {} is <dynamic>, not string`. -/
structure TypeAssertionError where
  dynamic : DynType
  deriving DecidableEq, Repr

/-- The type assertion `v.(string)`. -/
def assertString : Value → Except TypeAssertionError String
  | .str s => .ok s
  | v => .error ⟨v.dynType⟩

/-- The function `getApiResponse` (lines 130-150).  The four assertions of a
branch are evaluated in source order; `.error` is an unrecovered panic. -/
def getApiResponse (apiName : String) (data : GoMap) :
    Except TypeAssertionError ApiResponse :=
  if apiName = "BrasilAPI" then do
    let logradouro ← assertString (data.index "street")
    let bairro ← assertString (data.index "neighborhood")
    let cidade ← assertString (data.index "city")
    let uf ← assertString (data.index "state")
    pure { API := "BrasilAPI", Logradouro := logradouro, Bairro := bairro,
           Cidade := cidade, Uf := uf }
  else if apiName = "ViaCEP" then do
    let logradouro ← assertString (data.index "logradouro")
    let bairro ← assertString (data.index "bairro")
    let cidade ← assertString (data.index "localidade")
    let uf ← assertString (data.index "uf")
    pure { API := "ViaCEP", Logradouro := logradouro, Bairro := bairro,
           Cidade := cidade, Uf := uf }
  else
    pure { API := "", Logradouro := "", Bairro := "", Cidade := "", Uf := "" }

/-- The key is absent from the object, or bound to a value that is not a
string (`null`, a number, a boolean, an array or an object). -/
def GoMap.notAString (data : GoMap) (key : String) : Prop :=
  data.lookup key = none ∨ ∃ v, data.lookup key = some v ∧ ∀ s, v ≠ .str s

/-! ## Input validation -/

/-- The builtin `len(s)` of a string: its length in bytes. -/
def strLen (s : String) : Nat := s.utf8ByteSize

/-- The loop of `isNumeric` over the code points still to visit
(lines 154-158). -/
def isNumericLoop : List Char → Bool
  | [] => true
  | c :: rest => if c < '0' ∨ c > '9' then false else isNumericLoop rest

/-- The function `isNumeric` (lines 153-160). -/
def isNumeric (s : String) : Bool := isNumericLoop s.data

/-- The condition of the `if` at line 32: `len(cep) != 8 || !isNumeric(cep)`. -/
def cepInvalid (cep : String) : Bool := strLen cep != 8 || !isNumeric cep

/-- The condition of the `if` at line 109: `len(data) < 4`. -/
def undersized (data : GoMap) : Bool := data.len < 4

/-! ## What the network hands to one `getCepData` call -/

/-- The response body as `io.ReadAll` and `json.Unmarshal` see it (lines
95-107): the read fails, the bytes do not decode into a
`map[string]interface{}`, or they decode into `data`. -/
inductive Body where
  | readError (err : String)
  | undecodable (err : String)
  | decoded (data : GoMap)

/-- The outcome of the HTTP exchange of one `getCepData` call, in source
order: `http.NewRequestWithContext` fails (line 76), `client.Do` fails
(line 82), or a response with a status code and a body arrives. -/
inductive Reply where
  | requestError (err : String)
  | doError (err : String)
  | response (statusCode : Nat) (body : Body)

/-- One provider as seen from the program: it answers with a reply, or it
stays silent, in which case `client.Do` blocks until the context is done. -/
inductive Network where
  | answers (reply : Reply)
  | hangs

/-! ## Observable events -/

/-- What a run does that can be observed from outside, in order. -/
inductive Event where
  /-- Line 28, `Digite o CEP: `. -/
  | prompt
  /-- Line 33, the invalid-input message. -/
  | invalid
  /-- Line 61, the line that names the fastest provider and opens the address
  block. -/
  | header (api : String)
  /-- Line 62, the four address lines, which complete the address block. -/
  | address (result : ApiResponse)
  /-- Line 65, the timeout message. -/
  | timeout
  /-- A diagnostic line written by a goroutine (lines 83, 90, 97, 105, 110). -/
  | diag (text : String)
  /-- Line 81, `client.Do` sends a GET to `url`. -/
  | request (url : String)
  /-- Line 111, `time.Sleep` of `ms` milliseconds. -/
  | sleep (ms : Nat)
  /-- An unrecovered panic of a goroutine; the process exits with status 2. -/
  | panic (e : TypeAssertionError)
  deriving DecidableEq, Repr

/-- The text an event writes to standard output, if any (the panic message
goes to standard error). -/
def Event.stdout : Event → Option String
  | .prompt => some "Digite o CEP: "
  | .invalid => some "CEP inválido!\n"
  | .header api => some ("Resposta mais rápida foi da " ++ api ++ ":\n")
  | .address result =>
    some ("Logradouro: " ++ result.Logradouro ++ "\nBairro: " ++ result.Bairro ++
      "\nCidade: " ++ result.Cidade ++ "\nUF: " ++ result.Uf ++ "\n")
  | .timeout => some "Erro: Tempo de resposta excedido. Timeout de 1 segundo.\n"
  | .diag text => some text
  | .request _ => none
  | .sleep _ => none
  | .panic _ => none

/-- The three outcomes `main` reports: the invalid-input message, the address
block, which is complete once line 62 is printed, and the timeout message. -/
def Event.isOutcome : Event → Bool
  | .invalid => true
  | .address _ => true
  | .timeout => true
  | _ => false

/-- The outcomes among a list of events, in order. -/
def outcomes (trace : List Event) : List Event := trace.filter Event.isOutcome

/-- The requests among a list of events, in order. -/
def requests (trace : List Event) : List Event :=
  trace.filter (fun e => match e with | .request _ => true | _ => false)

/-! ## The sequential part of `getCepData` -/

/-- How the code of `getCepData` before its `select` ends. -/
inductive Exit where
  /-- A plain `return` (lines 77, 84, 91, 98, 106, 112). -/
  | returned
  /-- The call of `getApiResponse` at line 116 panics. -/
  | panicked (e : TypeAssertionError)
  /-- The `select` of line 119 is reached with `result`. -/
  | atSelect (result : ApiResponse)
  deriving DecidableEq, Repr

/-- The events of lines 70-116 and the way they end. -/
structure Segment where
  events : List Event
  exit : Exit
  deriving DecidableEq, Repr

/-- Lines 70-116 of `getCepData`, up to the `select`, on a given reply.  At
line 90 the variable `err` is `nil`, which `fmt.Println` prints as `<nil>`. -/
def getCepData (url apiName : String) (reply : Reply) : Segment :=
  match reply with
  | .requestError _ => ⟨[], .returned⟩
  | .doError err => ⟨[.request url, .diag (err ++ "\n")], .returned⟩
  | .response statusCode body =>
    if statusCode ≠ 200 then
      ⟨[.request url, .diag "<nil>\n"], .returned⟩
    else
      match body with
      | .readError err => ⟨[.request url, .diag (err ++ "\n")], .returned⟩
      | .undecodable err => ⟨[.request url, .diag (err ++ "\n")], .returned⟩
      | .decoded data =>
        if undersized data then
          ⟨[.request url,
            .diag ("Resposta inesperada do sevidor " ++ apiName ++ " \n"),
            .sleep 2], .returned⟩
        else
          match getApiResponse apiName data with
          | .error e => ⟨[.request url, .panic e], .panicked e⟩
          | .ok result => ⟨[.request url], .atSelect result⟩

/-! ## `main` and its two goroutines

The process is a state machine.  `main` runs lines 27-55 in one go (`start`)
and then waits in the `select` of line 58; the branch the `select` takes, each
of its print statements, the deferred `cancel()` of line 43 and the exit of
the process are moves of their own, so that the goroutines keep running
between them.  Each goroutine runs lines 70-116 in one move once the network
has given it something, and then waits in the `select` of line 119.  A
schedule lists the moves of `main`, of the goroutines and of the deadline
timer in the order in which they happen; where a Go `select` has several ready
cases, the schedule says which one is taken.  An unrecovered panic of a
goroutine ends the whole process, as does the return of `main`. -/

/-- The two goroutines started by `main` (lines 49-55). -/
inductive Tid where
  | brasil
  | viaCep
  deriving DecidableEq, Repr

/-- The provider name a goroutine passes to `getCepData`. -/
def Tid.apiName : Tid → String
  | .brasil => "BrasilAPI"
  | .viaCep => "ViaCEP"

/-- The URL a goroutine requests (lines 38-39). -/
def Tid.url (cep : String) : Tid → String
  | .brasil => "https://brasilapi.com.br/api/cep/v1/" ++ cep
  | .viaCep => "http://viacep.com.br/ws/" ++ cep ++ "/json/"

/-- Where a goroutine stands. -/
inductive TaskState where
  /-- Never started: `main` returned at line 34. -/
  | unspawned
  /-- Inside lines 70-116, waiting for the network. -/
  | fetching (url apiName : String) (net : Network)
  /-- Blocked in the `select` of line 119 with a result to send. -/
  | atSelect (result : ApiResponse)
  /-- Returned. -/
  | exited

/-- Where `main` stands. -/
inductive MainState where
  /-- Blocked in the `select` of line 58. -/
  | atSelect
  /-- The `select` received `result`; line 61 is next. -/
  | line61 (result : ApiResponse)
  /-- Line 61 is printed; line 62 is next. -/
  | line62 (result : ApiResponse)
  /-- The `select` took `<-ctx.Done()`; line 65 is next. -/
  | line65
  /-- The `select` statement is done; the deferred `cancel()` is next. -/
  | atReturn
  /-- The deferred `cancel()` has run; the process is about to exit. -/
  | exiting
  /-- `main` has returned and the process has exited. -/
  | returned
  deriving DecidableEq, Repr

/-- Why a context is done: `ctx.Err()`. -/
inductive CtxErr where
  | deadlineExceeded
  | canceled
  deriving DecidableEq, Repr

/-- The text of `ctx.Err()`. -/
def CtxErr.text : CtxErr → String
  | .deadlineExceeded => "context deadline exceeded"
  | .canceled => "context canceled"

/-- Closing `ctx.Done()` for `cause`; a context that is already done keeps
its error. -/
def closeCtx (ctx : Option CtxErr) (cause : CtxErr) : Option CtxErr :=
  match ctx with
  | some err => some err
  | none => some cause

/-- The state of the process. -/
structure World where
  main : MainState
  /-- Whether `ctx.Done()` is closed, and why: `none` while the context is
  live. -/
  ctx : Option CtxErr
  /-- The buffer of `resultChannel`, of capacity 1. -/
  chan : Option ApiResponse
  brasil : TaskState
  viaCep : TaskState
  /-- Whether a goroutine panicked, which ends the process. -/
  crashed : Bool
  trace : List Event

/-- The state of goroutine `t`. -/
def World.task (w : World) : Tid → TaskState
  | .brasil => w.brasil
  | .viaCep => w.viaCep

/-- Replace the state of goroutine `t`. -/
def World.setTask (w : World) (t : Tid) (s : TaskState) : World :=
  match t with
  | .brasil => { w with brasil := s }
  | .viaCep => { w with viaCep := s }

/-- The process is over: it exited on the return of `main`, or a goroutine
panicked. -/
def World.ended (w : World) : Bool :=
  w.main == .returned || w.crashed

/-- Lines 27-55 of `main`: prompt, validate, and either report the invalid
input and return, or start the two goroutines and reach the `select`. -/
def start (cep : String) (net : Tid → Network) : World :=
  if cepInvalid cep then
    { main := .returned, ctx := none, chan := none,
      brasil := .unspawned, viaCep := .unspawned, crashed := false,
      trace := [.prompt, .invalid] }
  else
    { main := .atSelect, ctx := none, chan := none,
      brasil := .fetching (Tid.url cep .brasil) "BrasilAPI" (net .brasil),
      viaCep := .fetching (Tid.url cep .viaCep) "ViaCEP" (net .viaCep),
      crashed := false,
      trace := [.prompt] }

/-- The moves of the scheduler and of the clock. -/
inductive Action where
  /-- The 1-second deadline fires: `ctx.Done()` is closed. -/
  | deadline
  /-- Goroutine `t` runs lines 70-116 on what the network gave it. -/
  | run (t : Tid)
  /-- The `select` of goroutine `t` takes `resultChannel <- result`. -/
  | send (t : Tid)
  /-- The `select` of goroutine `t` takes `<-ctx.Done()`. -/
  | cancel (t : Tid)
  /-- The `select` of `main` takes `result := <-resultChannel`. -/
  | recv
  /-- The `select` of `main` takes `<-ctx.Done()`. -/
  | expire
  /-- `main` runs its next print statement: line 61, line 62 or line 65. -/
  | print
  /-- `main` leaves the `select` statement and runs the deferred `cancel()`
  of line 43. -/
  | deferred
  /-- `main` returns and the process exits. -/
  | exit
  deriving DecidableEq, Repr

/-- The error `client.Do` returns once the context is done. -/
def ctxError (url : String) (err : CtxErr) : String :=
  "Get \"" ++ url ++ "\": " ++ err.text

/-- Goroutine `t` has run lines 70-116 with the given events and exit. -/
def World.afterSegment (w : World) (t : Tid) (seg : Segment) : World :=
  match seg.exit with
  | .returned => { w.setTask t .exited with trace := w.trace ++ seg.events }
  | .panicked _ =>
    { w.setTask t .exited with trace := w.trace ++ seg.events, crashed := true }
  | .atSelect result =>
    { w.setTask t (.atSelect result) with trace := w.trace ++ seg.events }

/-- One move.  A move that is not enabled leaves the state as it is, and
nothing moves once the process is over. -/
def step (w : World) (a : Action) : World :=
  if w.ended then w
  else
    match a with
    | .deadline => { w with ctx := closeCtx w.ctx .deadlineExceeded }
    | .run t =>
      match w.task t with
      | .fetching url apiName (.answers reply) =>
        w.afterSegment t (getCepData url apiName reply)
      | .fetching url apiName .hangs =>
        match w.ctx with
        | some err =>
          w.afterSegment t (getCepData url apiName (.doError (ctxError url err)))
        | none => w
      | _ => w
    | .send t =>
      match w.task t, w.chan with
      | .atSelect result, none => { w.setTask t .exited with chan := some result }
      | _, _ => w
    | .cancel t =>
      match w.task t, w.ctx with
      | .atSelect _, some _ => w.setTask t .exited
      | _, _ => w
    | .recv =>
      match w.main, w.chan with
      | .atSelect, some result => { w with chan := none, main := .line61 result }
      | _, _ => w
    | .expire =>
      match w.main, w.ctx with
      | .atSelect, some _ => { w with main := .line65 }
      | _, _ => w
    | .print =>
      match w.main with
      | .line61 result =>
        { w with main := .line62 result, trace := w.trace ++ [.header result.API] }
      | .line62 result =>
        { w with main := .atReturn, trace := w.trace ++ [.address result] }
      | .line65 => { w with main := .atReturn, trace := w.trace ++ [.timeout] }
      | _ => w
    | .deferred =>
      match w.main with
      | .atReturn => { w with main := .exiting, ctx := closeCtx w.ctx .canceled }
      | _ => w
    | .exit =>
      match w.main with
      | .exiting => { w with main := .returned }
      | _ => w

/-- The state after the moves of a schedule, from a given state. -/
def runFrom (w : World) (schedule : List Action) : World :=
  schedule.foldl step w

/-- The program on the postal code `cep` read by `fmt.Scanln`, the two
providers `net` and a schedule. -/
def exec (cep : String) (net : Tid → Network) (schedule : List Action) : World :=
  runFrom (start cep net) schedule

/-- The moves that bring `main` to its return from wherever it stands: the
deadline fires, the `select` takes `<-ctx.Done()` if `main` still waits in it,
the one or two print statements left are run, the deferred `cancel()` runs
and the process exits. -/
def finish : List Action := [.deadline, .expire, .print, .print, .deferred, .exit]

/-- The events written by `main` itself: the prompt, the two lines of the
address block, the invalid-input message and the timeout message. -/
def Event.byMain : Event → Bool
  | .prompt => true
  | .invalid => true
  | .header _ => true
  | .address _ => true
  | .timeout => true
  | _ => false

/-- Some provider sends a reply that reaches the mapping and is mapped to
`result`: status 200, a decoded body that passes the check of line 109, and
`getApiResponse` returning `result` for that provider. -/
def Mapped (net : Tid → Network) (result : ApiResponse) : Prop :=
  ∃ t data, net t = .answers (.response 200 (.decoded data)) ∧
    undersized data = false ∧ getApiResponse t.apiName data = .ok result

/-- A provider's reply reaches the mapping and makes `getApiResponse`
panic. -/
def Panics (net : Tid → Network) : Prop :=
  ∃ t data e, net t = .answers (.response 200 (.decoded data)) ∧
    undersized data = false ∧ getApiResponse t.apiName data = .error e

/-- What `main` has printed when it stands at a given place: the prompt
alone up to line 61 and line 65, the prompt and the header before line 62,
and after the `select` statement the prompt and either the timeout message or
the two lines of one address block; a `main` that has returned may also have
printed the invalid-input message instead. -/
def MainPrinted (net : Tid → Network) : MainState → List Event → Prop
  | .atSelect, l => l = [.prompt]
  | .line61 r, l => l = [.prompt] ∧ Mapped net r
  | .line62 r, l => l = [.prompt, .header r.API] ∧ Mapped net r
  | .line65, l => l = [.prompt]
  | .atReturn, l =>
    l = [.prompt, .timeout] ∨
      ∃ r, Mapped net r ∧ l = [.prompt, .header r.API, .address r]
  | .exiting, l =>
    l = [.prompt, .timeout] ∨
      ∃ r, Mapped net r ∧ l = [.prompt, .header r.API, .address r]
  | .returned, l =>
    l = [.prompt, .invalid] ∨ l = [.prompt, .timeout] ∨
      ∃ r, Mapped net r ∧ l = [.prompt, .header r.API, .address r]

/-- What holds in every state of a run of the program on `cep` and `net`. -/
structure Inv (cep : String) (net : Tid → Network) (w : World) : Prop where
  prints : MainPrinted net w.main (w.trace.filter Event.byMain)
  invalidOnly : Event.invalid ∈ w.trace → cepInvalid cep = true
  origin : ∀ r, (w.chan = some r ∨ ∃ t, w.task t = .atSelect r) → Mapped net r
  fetch : ∀ t url apiName nt, w.task t = .fetching url apiName nt →
    url = t.url cep ∧ apiName = t.apiName ∧ nt = net t
  crash : (w.crashed = true ∨ ∃ e, Event.panic e ∈ w.trace) → Panics net

/-- A provider that cannot deliver a result: the request fails, the status is
not 200, the body cannot be read or decoded, the decoded body has fewer than 4
keys, or no reply comes before the context is done. -/
def Network.fails : Network → Bool
  | .answers (.response statusCode (.decoded data)) =>
    statusCode != 200 || undersized data
  | _ => true

/-! ## Sample replies -/

/-- A BrasilAPI reply with further keys. -/
def sampleBrasil : GoMap :=
  ⟨[("cep", .str "01153000"), ("state", .str "SP"), ("city", .str "São Paulo"),
    ("neighborhood", .str "Barra Funda"), ("street", .str "Rua Vitorino Carmilo"),
    ("service", .str "open-cep")], by decide⟩

/-- A ViaCEP reply with further keys of other types. -/
def sampleViaCep : GoMap :=
  ⟨[("cep", .str "01153-000"), ("logradouro", .str "Rua Vitorino Carmilo"),
    ("complemento", .str ""), ("bairro", .str "Barra Funda"),
    ("localidade", .str "São Paulo"), ("uf", .str "SP"), ("ibge", .number 0),
    ("ddd", .null)], by decide⟩

/-- A BrasilAPI reply whose `street` is `null`. -/
def nullStreet : GoMap :=
  ⟨[("cep", .str "01153000"), ("state", .str "SP"), ("city", .str "São Paulo"),
    ("neighborhood", .str "Barra Funda"), ("street", .null)], by decide⟩

/-- A reply that holds the four keys of both providers. -/
def bothSchemas : GoMap :=
  ⟨[("logradouro", .str "Outra Rua"), ("bairro", .str "Outro Bairro"),
    ("localidade", .str "Outra Cidade"), ("uf", .str "RJ"),
    ("street", .str "Rua Vitorino Carmilo"), ("neighborhood", .str "Barra Funda"),
    ("city", .str "São Paulo"), ("state", .str "SP")], by decide⟩

/-- A reply with four keys, none of them a mapped key of either provider. -/
def unrelatedKeys : GoMap :=
  ⟨[("name", .str "CepPromiseError"), ("message", .str "CEP não encontrado"),
    ("type", .str "service_error"), ("errors", .array [])], by decide⟩

/-- A reply with exactly the four BrasilAPI keys. -/
def fourKeys : GoMap :=
  ⟨[("street", .str "R. X"), ("neighborhood", .str "B"), ("city", .str "São Paulo"),
    ("state", .str "SP")], by decide⟩

/-- A reply with three of the BrasilAPI keys, all strings. -/
def threeKeys : GoMap :=
  ⟨[("street", .str "Rua Vitorino Carmilo"), ("neighborhood", .str "Barra Funda"),
    ("city", .str "São Paulo")], by decide⟩

/-- Both providers answer with a well-formed reply. -/
def bothAnswer : Tid → Network
  | .brasil => .answers (.response 200 (.decoded sampleBrasil))
  | .viaCep => .answers (.response 200 (.decoded sampleViaCep))

/-- BrasilAPI answers with a `null` street, ViaCEP has not answered. -/
def brasilNullStreet : Tid → Network
  | .brasil => .answers (.response 200 (.decoded nullStreet))
  | .viaCep => .hangs

/-- A ViaCEP reply whose `logradouro` is a number. -/
def numberLogradouro : GoMap :=
  ⟨[("cep", .str "01153-000"), ("logradouro", .number 0),
    ("bairro", .str "Barra Funda"), ("localidade", .str "São Paulo"),
    ("uf", .str "SP")], by decide⟩

/-- BrasilAPI answers with a well-formed reply, ViaCEP with a `logradouro`
that is not a string. -/
def viaCepMistyped : Tid → Network
  | .brasil => .answers (.response 200 (.decoded sampleBrasil))
  | .viaCep => .answers (.response 200 (.decoded numberLogradouro))

/-- BrasilAPI answers with three keys, ViaCEP does not answer. -/
def bothFail : Tid → Network
  | .brasil => .answers (.response 200 (.decoded threeKeys))
  | .viaCep => .hangs

end CepRace

namespace CepRace

/-! ## Input validation: lemmas -/

theorem utf8Size_of_le_nine (c : Char) (h : c ≤ '9') : c.utf8Size = 1 := by
  have h1 : c.val ≤ '9'.val := Char.le_def.mp h
  have h2 : c.val.toNat ≤ 57 := by
    have := UInt32.le_def.mp h1
    simpa using this
  have h3 : c.val ≤ UInt32.ofNatCore 127 (by decide) := by
    apply UInt32.le_def.mpr
    show c.val.toNat ≤ 127
    omega
  unfold Char.utf8Size
  exact if_pos h3

theorem utf8ByteSize_go_of_digits (l : List Char) (h : ∀ c ∈ l, c ≤ '9') :
    String.utf8ByteSize.go l = l.length := by
  induction l with
  | nil => rfl
  | cons c cs ih =>
    simp only [String.utf8ByteSize.go, List.length_cons]
    rw [ih (fun d hd => h d (List.mem_cons_of_mem _ hd)),
      utf8Size_of_le_nine c (h c (List.mem_cons_self _ _))]

theorem strLen_of_digits (s : String) (h : ∀ c ∈ s.data, '0' ≤ c ∧ c ≤ '9') :
    strLen s = s.data.length := by
  cases s with
  | mk l => exact utf8ByteSize_go_of_digits l (fun c hc => (h c hc).2)

theorem isNumericLoop_eq_true (l : List Char) :
    isNumericLoop l = true ↔ ∀ c ∈ l, '0' ≤ c ∧ c ≤ '9' := by
  induction l with
  | nil => simp [isNumericLoop]
  | cons c cs ih =>
    unfold isNumericLoop
    by_cases hc : c < '0' ∨ c > '9'
    · rw [if_pos hc]
      simp only [Bool.false_eq_true, List.mem_cons, forall_eq_or_imp, false_iff, not_and]
      intro h
      rcases hc with hc | hc
      · exact absurd h.1 (not_le.mpr hc)
      · exact absurd h.2 (not_le.mpr hc)
    · rw [if_neg hc, ih]
      simp only [List.mem_cons, forall_eq_or_imp]
      have h0 : '0' ≤ c := not_lt.mp (fun h => hc (Or.inl h))
      have h9 : c ≤ '9' := not_lt.mp (fun h => hc (Or.inr h))
      exact ⟨fun h => ⟨⟨h0, h9⟩, h⟩, fun h => h.2⟩

theorem cepInvalid_eq_false (cep : String) :
    cepInvalid cep = false ↔
      cep.data.length = 8 ∧ ∀ c ∈ cep.data, '0' ≤ c ∧ c ≤ '9' := by
  unfold cepInvalid isNumeric
  constructor
  · intro h
    simp only [Bool.or_eq_false_iff, bne_eq_false_iff_eq, Bool.not_eq_false'] at h
    have hd := (isNumericLoop_eq_true cep.data).mp h.2
    exact ⟨by rw [← strLen_of_digits cep hd]; exact h.1, hd⟩
  · rintro ⟨hl, hd⟩
    simp only [Bool.or_eq_false_iff, bne_eq_false_iff_eq, Bool.not_eq_false']
    exact ⟨by rw [strLen_of_digits cep hd]; exact hl, (isNumericLoop_eq_true cep.data).mpr hd⟩

theorem cepInvalid_of_bad (cep : String)
    (h : strLen cep ≠ 8 ∨ ∃ c ∈ cep.data, c < '0' ∨ '9' < c) :
    cepInvalid cep = true := by
  cases hv : cepInvalid cep with
  | true => rfl
  | false =>
    exfalso
    obtain ⟨hl, hd⟩ := (cepInvalid_eq_false cep).mp hv
    rcases h with h | ⟨c, hc, h | h⟩
    · exact h (by rw [strLen_of_digits cep hd]; exact hl)
    · exact absurd (hd c hc).1 (not_le.mpr h)
    · exact absurd (hd c hc).2 (not_le.mpr h)

/-! ## The field mapping: lemmas -/

theorem assertString_index_of_lookup (data : GoMap) (key s : String)
    (h : data.lookup key = some (.str s)) :
    assertString (data.index key) = .ok s := by
  simp [GoMap.index, h, assertString]

theorem assertString_index_cases (data : GoMap) (key : String) :
    (∃ s, data.lookup key = some (.str s) ∧ assertString (data.index key) = .ok s) ∨
    ((data.lookup key = none ∨ ∃ v, data.lookup key = some v ∧ ∀ s, v ≠ .str s) ∧
      ∃ e, assertString (data.index key) = .error e) := by
  unfold GoMap.index
  cases h : data.lookup key with
  | none => exact Or.inr ⟨Or.inl rfl, ⟨_, rfl⟩⟩
  | some v =>
    cases v with
    | str s => exact Or.inl ⟨s, rfl, rfl⟩
    | null => exact Or.inr ⟨Or.inr ⟨_, rfl, fun s hs => by cases hs⟩, ⟨_, rfl⟩⟩
    | bool b => exact Or.inr ⟨Or.inr ⟨_, rfl, fun s hs => by cases hs⟩, ⟨_, rfl⟩⟩
    | number n => exact Or.inr ⟨Or.inr ⟨_, rfl, fun s hs => by cases hs⟩, ⟨_, rfl⟩⟩
    | array l => exact Or.inr ⟨Or.inr ⟨_, rfl, fun s hs => by cases hs⟩, ⟨_, rfl⟩⟩
    | object l => exact Or.inr ⟨Or.inr ⟨_, rfl, fun s hs => by cases hs⟩, ⟨_, rfl⟩⟩

theorem getApiResponse_brasil (data : GoMap) :
    getApiResponse "BrasilAPI" data =
      (assertString (data.index "street")).bind fun logradouro =>
      (assertString (data.index "neighborhood")).bind fun bairro =>
      (assertString (data.index "city")).bind fun cidade =>
      (assertString (data.index "state")).bind fun uf =>
      .ok ⟨"BrasilAPI", logradouro, bairro, cidade, uf⟩ := by
  unfold getApiResponse
  rw [if_pos rfl]
  rfl

theorem getApiResponse_viaCep (data : GoMap) :
    getApiResponse "ViaCEP" data =
      (assertString (data.index "logradouro")).bind fun logradouro =>
      (assertString (data.index "bairro")).bind fun bairro =>
      (assertString (data.index "localidade")).bind fun cidade =>
      (assertString (data.index "uf")).bind fun uf =>
      .ok ⟨"ViaCEP", logradouro, bairro, cidade, uf⟩ := by
  unfold getApiResponse
  rw [if_neg (by decide), if_pos rfl]
  rfl

theorem getApiResponse_other (apiName : String) (data : GoMap)
    (hB : apiName ≠ "BrasilAPI") (hV : apiName ≠ "ViaCEP") :
    getApiResponse apiName data = .ok ⟨"", "", "", "", ""⟩ := by
  unfold getApiResponse
  rw [if_neg hB, if_neg hV]
  rfl

theorem assertString_index_error_iff (data : GoMap) (key : String) :
    (∃ e, assertString (data.index key) = .error e) ↔ data.notAString key := by
  rcases assertString_index_cases data key with ⟨s, hl, ha⟩ | ⟨hn, he⟩
  · constructor
    · rintro ⟨e, he⟩
      rw [ha] at he
      cases he
    · rintro (hn | ⟨v, hv, hs⟩)
      · rw [hl] at hn
        cases hn
      · rw [hl] at hv
        cases hv
        exact absurd rfl (hs s)
  · exact ⟨fun _ => hn, fun _ => he⟩

/-- The shape of a four-field mapping: it fails exactly when one of the four
assertions fails. -/
theorem bind4_error_iff {α : Type} (x1 x2 x3 x4 : Except TypeAssertionError String)
    (f : String → String → String → String → α) :
    (∃ e, (x1.bind fun a => x2.bind fun b => x3.bind fun c => x4.bind fun d =>
        (Except.ok (f a b c d) : Except TypeAssertionError α)) = .error e) ↔
      ((∃ e, x1 = .error e) ∨ (∃ e, x2 = .error e) ∨ (∃ e, x3 = .error e) ∨
        (∃ e, x4 = .error e)) := by
  cases x1 <;> cases x2 <;> cases x3 <;> cases x4 <;> simp [Except.bind]

/-! ## Runs: lemmas -/

theorem step_of_ended (w : World) (a : Action) (h : w.ended = true) : step w a = w := by
  unfold step
  rw [if_pos h]

theorem runFrom_of_ended (w : World) (schedule : List Action) (h : w.ended = true) :
    runFrom w schedule = w := by
  induction schedule with
  | nil => rfl
  | cons a rest ih =>
    show runFrom (step w a) rest = w
    rw [step_of_ended w a h]
    exact ih

theorem runFrom_append (w : World) (s1 s2 : List Action) :
    runFrom w (s1 ++ s2) = runFrom (runFrom w s1) s2 := by
  simp [runFrom, List.foldl_append]

theorem start_of_invalid (cep : String) (net : Tid → Network) (h : cepInvalid cep = true) :
    start cep net =
      { main := .returned, ctx := none, chan := none,
        brasil := .unspawned, viaCep := .unspawned, crashed := false,
        trace := [.prompt, .invalid] } := by
  unfold start
  rw [if_pos h]

theorem start_of_valid (cep : String) (net : Tid → Network) (h : cepInvalid cep = false) :
    start cep net =
      { main := .atSelect, ctx := none, chan := none,
        brasil := .fetching (Tid.url cep .brasil) "BrasilAPI" (net .brasil),
        viaCep := .fetching (Tid.url cep .viaCep) "ViaCEP" (net .viaCep),
        crashed := false,
        trace := [.prompt] } := by
  unfold start
  rw [if_neg (by simp [h])]

theorem mapping_of_four_strings (data : GoMap) (a b c d : String) :
    (data.lookup "street" = some (.str a) →
      data.lookup "neighborhood" = some (.str b) →
      data.lookup "city" = some (.str c) →
      data.lookup "state" = some (.str d) →
      getApiResponse "BrasilAPI" data = .ok ⟨"BrasilAPI", a, b, c, d⟩) ∧
    (data.lookup "logradouro" = some (.str a) →
      data.lookup "bairro" = some (.str b) →
      data.lookup "localidade" = some (.str c) →
      data.lookup "uf" = some (.str d) →
      getApiResponse "ViaCEP" data = .ok ⟨"ViaCEP", a, b, c, d⟩) := by
  constructor
  · intro h1 h2 h3 h4
    rw [getApiResponse_brasil, assertString_index_of_lookup data _ _ h1,
      assertString_index_of_lookup data _ _ h2, assertString_index_of_lookup data _ _ h3,
      assertString_index_of_lookup data _ _ h4]
    rfl
  · intro h1 h2 h3 h4
    rw [getApiResponse_viaCep, assertString_index_of_lookup data _ _ h1,
      assertString_index_of_lookup data _ _ h2, assertString_index_of_lookup data _ _ h3,
      assertString_index_of_lookup data _ _ h4]
    rfl

@[simp] theorem setTask_main (w : World) (t : Tid) (s : TaskState) :
    (w.setTask t s).main = w.main := by cases t <;> rfl
@[simp] theorem setTask_chan (w : World) (t : Tid) (s : TaskState) :
    (w.setTask t s).chan = w.chan := by cases t <;> rfl
@[simp] theorem setTask_ctx (w : World) (t : Tid) (s : TaskState) :
    (w.setTask t s).ctx = w.ctx := by cases t <;> rfl
@[simp] theorem setTask_crashed (w : World) (t : Tid) (s : TaskState) :
    (w.setTask t s).crashed = w.crashed := by cases t <;> rfl
@[simp] theorem setTask_trace (w : World) (t : Tid) (s : TaskState) :
    (w.setTask t s).trace = w.trace := by cases t <;> rfl
theorem setTask_task (w : World) (t u : Tid) (s : TaskState) :
    (w.setTask t s).task u = if u = t then s else w.task u := by
  cases t <;> cases u <;> rfl

/-- The three ways lines 70-116 end, with their events. -/
theorem getCepData_cases (url apiName : String) (reply : Reply) :
    ((getCepData url apiName reply).exit = .returned ∧
      ∀ e ∈ (getCepData url apiName reply).events,
        e.byMain = false ∧ ∀ x, e ≠ .panic x) ∨
    (∃ data e, reply = .response 200 (.decoded data) ∧ undersized data = false ∧
      getApiResponse apiName data = .error e ∧
      getCepData url apiName reply = ⟨[.request url, .panic e], .panicked e⟩) ∨
    (∃ data r, reply = .response 200 (.decoded data) ∧ undersized data = false ∧
      getApiResponse apiName data = .ok r ∧
      getCepData url apiName reply = ⟨[.request url], .atSelect r⟩) := by
  cases reply with
  | requestError err => exact Or.inl ⟨rfl, by simp [getCepData]⟩
  | doError err => exact Or.inl ⟨rfl, by simp [getCepData, Event.byMain]⟩
  | response statusCode body =>
    by_cases hs : statusCode = 200
    · subst hs
      cases body with
      | readError err => exact Or.inl ⟨rfl, by simp [getCepData, Event.byMain]⟩
      | undecodable err => exact Or.inl ⟨rfl, by simp [getCepData, Event.byMain]⟩
      | decoded data =>
        cases hu : undersized data with
        | true => exact Or.inl ⟨by simp [getCepData, hu], by simp [getCepData, hu, Event.byMain]⟩
        | false =>
          cases hg : getApiResponse apiName data with
          | error e => exact Or.inr (Or.inl ⟨data, e, rfl, hu, hg, by simp [getCepData, hu, hg]⟩)
          | ok r => exact Or.inr (Or.inr ⟨data, r, rfl, hu, hg, by simp [getCepData, hu, hg]⟩)
    · exact Or.inl ⟨by simp [getCepData, hs], by simp [getCepData, hs, Event.byMain]⟩

theorem isOutcome_le_byMain (e : Event) (h : e.byMain = false) : e.isOutcome = false := by
  cases e <;> simp_all [Event.byMain, Event.isOutcome]

/-- The outcomes of a trace are the outcomes among what `main` printed. -/
theorem outcomes_eq_filter_byMain (trace : List Event) :
    outcomes trace = (trace.filter Event.byMain).filter Event.isOutcome := by
  unfold outcomes
  rw [List.filter_filter]
  apply List.filter_congr
  intro e _
  cases hb : e.byMain with
  | true => simp
  | false => simp [isOutcome_le_byMain e hb]

theorem filter_quiet (p : Event → Bool) (l : List Event) (h : ∀ e ∈ l, p e = false) :
    l.filter p = [] := by
  induction l with
  | nil => rfl
  | cons e rest ih =>
    rw [List.filter_cons, h e (List.mem_cons_self _ _)]
    exact ih (fun x hx => h x (List.mem_cons_of_mem _ hx))

theorem not_ended (w : World) (h : w.ended = false) :
    w.main ≠ .returned ∧ w.crashed = false := by
  unfold World.ended at h
  cases hm : w.main <;> cases hc : w.crashed <;> simp_all

theorem ended_eq_false (w : World) (hm : w.main ≠ .returned) (hc : w.crashed = false) :
    w.ended = false := by
  unfold World.ended
  rw [hc]
  cases hm' : w.main <;> first | rfl | exact absurd hm' hm

/-- Every move, when it changes the state, is one of the enabled moves. -/
theorem step_cases (w : World) (a : Action) :
    step w a = w ∨
    (w.ended = false ∧
      (step w a = { w with ctx := closeCtx w.ctx .deadlineExceeded } ∨
       (∃ t url apiName reply, w.task t = .fetching url apiName (.answers reply) ∧
          step w a = w.afterSegment t (getCepData url apiName reply)) ∨
       (∃ t url apiName err, w.task t = .fetching url apiName .hangs ∧
          w.ctx = some err ∧
          step w a =
            w.afterSegment t (getCepData url apiName (.doError (ctxError url err)))) ∨
       (∃ t result, w.task t = .atSelect result ∧ w.chan = none ∧
          step w a = { w.setTask t .exited with chan := some result }) ∨
       (∃ t result err, w.task t = .atSelect result ∧ w.ctx = some err ∧
          step w a = w.setTask t .exited) ∨
       (∃ result, w.main = .atSelect ∧ w.chan = some result ∧
          step w a = { w with chan := none, main := .line61 result }) ∨
       (∃ err, w.main = .atSelect ∧ w.ctx = some err ∧
          step w a = { w with main := .line65 }) ∨
       (∃ result, w.main = .line61 result ∧
          step w a = { w with main := .line62 result,
                              trace := w.trace ++ [.header result.API] }) ∨
       (∃ result, w.main = .line62 result ∧
          step w a = { w with main := .atReturn,
                              trace := w.trace ++ [.address result] }) ∨
       (w.main = .line65 ∧
          step w a = { w with main := .atReturn, trace := w.trace ++ [.timeout] }) ∨
       (w.main = .atReturn ∧
          step w a = { w with main := .exiting, ctx := closeCtx w.ctx .canceled }) ∨
       (w.main = .exiting ∧ step w a = { w with main := .returned }))) := by
  unfold step
  by_cases he : w.ended = true
  · left
    rw [if_pos he]
  · rw [if_neg he]
    have he' : w.ended = false := by simpa using he
    cases a with
    | deadline => exact Or.inr ⟨he', Or.inl rfl⟩
    | run t =>
      simp only
      split
      · rename_i url apiName reply h
        exact Or.inr ⟨he', Or.inr (Or.inl ⟨t, url, apiName, reply, h, rfl⟩)⟩
      · rename_i url apiName h
        split
        · rename_i err hc
          exact Or.inr ⟨he', Or.inr (Or.inr (Or.inl ⟨t, url, apiName, err, h, hc, rfl⟩))⟩
        · exact Or.inl rfl
      · exact Or.inl rfl
    | send t =>
      simp only
      split
      · rename_i result h1 h2
        exact Or.inr ⟨he', Or.inr (Or.inr (Or.inr (Or.inl ⟨t, result, h1, h2, rfl⟩)))⟩
      · exact Or.inl rfl
    | cancel t =>
      simp only
      split
      · rename_i result err h1 h2
        exact Or.inr ⟨he', Or.inr (Or.inr (Or.inr (Or.inr
          (Or.inl ⟨t, result, err, h1, h2, rfl⟩))))⟩
      · exact Or.inl rfl
    | recv =>
      simp only
      split
      · rename_i result h1 h2
        exact Or.inr ⟨he', Or.inr (Or.inr (Or.inr (Or.inr (Or.inr
          (Or.inl ⟨result, h1, h2, rfl⟩)))))⟩
      · exact Or.inl rfl
    | expire =>
      simp only
      split
      · rename_i err h1 h2
        exact Or.inr ⟨he', Or.inr (Or.inr (Or.inr (Or.inr (Or.inr (Or.inr
          (Or.inl ⟨err, h1, h2, rfl⟩))))))⟩
      · exact Or.inl rfl
    | print =>
      simp only
      split
      · rename_i result h
        exact Or.inr ⟨he', Or.inr (Or.inr (Or.inr (Or.inr (Or.inr (Or.inr (Or.inr
          (Or.inl ⟨result, h, rfl⟩)))))))⟩
      · rename_i result h
        exact Or.inr ⟨he', Or.inr (Or.inr (Or.inr (Or.inr (Or.inr (Or.inr (Or.inr
          (Or.inr (Or.inl ⟨result, h, rfl⟩))))))))⟩
      · rename_i h
        exact Or.inr ⟨he', Or.inr (Or.inr (Or.inr (Or.inr (Or.inr (Or.inr (Or.inr
          (Or.inr (Or.inr (Or.inl ⟨h, rfl⟩)))))))))⟩
      · exact Or.inl rfl
    | deferred =>
      simp only
      split
      · rename_i h
        exact Or.inr ⟨he', Or.inr (Or.inr (Or.inr (Or.inr (Or.inr (Or.inr (Or.inr
          (Or.inr (Or.inr (Or.inr (Or.inl ⟨h, rfl⟩))))))))))⟩
      · exact Or.inl rfl
    | exit =>
      simp only
      split
      · rename_i h
        exact Or.inr ⟨he', Or.inr (Or.inr (Or.inr (Or.inr (Or.inr (Or.inr (Or.inr
          (Or.inr (Or.inr (Or.inr (Or.inr ⟨h, rfl⟩))))))))))⟩
      · exact Or.inl rfl

@[simp] theorem afterSegment_main (w : World) (t : Tid) (seg : Segment) :
    (w.afterSegment t seg).main = w.main := by
  unfold World.afterSegment; split <;> simp
@[simp] theorem afterSegment_chan (w : World) (t : Tid) (seg : Segment) :
    (w.afterSegment t seg).chan = w.chan := by
  unfold World.afterSegment; split <;> simp
@[simp] theorem afterSegment_ctx (w : World) (t : Tid) (seg : Segment) :
    (w.afterSegment t seg).ctx = w.ctx := by
  unfold World.afterSegment; split <;> simp
@[simp] theorem afterSegment_trace (w : World) (t : Tid) (seg : Segment) :
    (w.afterSegment t seg).trace = w.trace ++ seg.events := by
  unfold World.afterSegment; split <;> simp
theorem afterSegment_crashed (w : World) (t : Tid) (seg : Segment) :
    (w.afterSegment t seg).crashed = true ↔
      (w.crashed = true ∨ ∃ e, seg.exit = .panicked e) := by
  unfold World.afterSegment; split <;> simp_all
theorem afterSegment_task_ne (w : World) (t u : Tid) (seg : Segment) (h : u ≠ t) :
    (w.afterSegment t seg).task u = w.task u := by
  unfold World.afterSegment
  split <;> cases t <;> cases u <;> first | rfl | exact absurd rfl h
theorem afterSegment_task_self (w : World) (t : Tid) (seg : Segment) :
    (w.afterSegment t seg).task t = .exited ∨
      ∃ r, seg.exit = .atSelect r ∧ (w.afterSegment t seg).task t = .atSelect r := by
  unfold World.afterSegment
  split
  · left; cases t <;> rfl
  · left; cases t <;> rfl
  · rename_i r h
    right
    exact ⟨r, h, by cases t <;> rfl⟩
theorem Inv_start (cep : String) (net : Tid → Network) : Inv cep net (start cep net) := by
  cases hv : cepInvalid cep with
  | true =>
    rw [start_of_invalid cep net hv]
    refine ⟨Or.inl rfl, fun _ => hv, ?_, ?_, ?_⟩
    · rintro r (h | ⟨t, h⟩)
      · cases h
      · cases t <;> cases h
    · intro t url apiName nt h
      cases t <;> cases h
    · rintro (h | ⟨e, h⟩)
      · cases h
      · simp at h
  | false =>
    rw [start_of_valid cep net hv]
    refine ⟨rfl, fun h => (by simp at h), ?_, ?_, ?_⟩
    · rintro r (h | ⟨t, h⟩)
      · cases h
      · cases t <;> cases h
    · intro t url apiName nt h
      cases t <;> cases h <;> exact ⟨rfl, rfl, rfl⟩
    · rintro (h | ⟨e, h⟩)
      · cases h
      · simp at h

theorem Inv_afterSegment {cep : String} {net : Tid → Network} {w : World}
    (hI : Inv cep net w) (t : Tid) (seg : Segment)
    (hev : ∀ e ∈ seg.events, e.byMain = false)
    (hpanic : ((∃ e, seg.exit = .panicked e) ∨ ∃ e, Event.panic e ∈ seg.events) →
      Panics net)
    (hsel : ∀ r, seg.exit = .atSelect r → Mapped net r) :
    Inv cep net (w.afterSegment t seg) := by
  refine ⟨?_, ?_, ?_, ?_, ?_⟩
  · rw [afterSegment_main, afterSegment_trace, List.filter_append, filter_quiet _ _ hev,
      List.append_nil]
    exact hI.prints
  · intro h
    rw [afterSegment_trace, List.mem_append] at h
    rcases h with h | h
    · exact hI.invalidOnly h
    · have := hev _ h
      simp [Event.byMain] at this
  · rintro r (h | ⟨u, h⟩)
    · exact hI.origin r (Or.inl (by simpa using h))
    · by_cases hu : u = t
      · subst hu
        rcases afterSegment_task_self w u seg with h' | ⟨r', hr', h'⟩
        · rw [h'] at h
          cases h
        · rw [h'] at h
          cases h
          exact hsel _ hr'
      · rw [afterSegment_task_ne w t u seg hu] at h
        exact hI.origin r (Or.inr ⟨u, h⟩)
  · intro u url apiName nt h
    by_cases hu : u = t
    · subst hu
      rcases afterSegment_task_self w u seg with h' | ⟨r', _, h'⟩
      · rw [h'] at h
        cases h
      · rw [h'] at h
        cases h
    · rw [afterSegment_task_ne w t u seg hu] at h
      exact hI.fetch u url apiName nt h
  · rintro (h | ⟨e, h⟩)
    · rcases (afterSegment_crashed w t seg).mp h with h | h
      · exact hI.crash (Or.inl h)
      · exact hpanic (Or.inl h)
    · rw [afterSegment_trace, List.mem_append] at h
      rcases h with h | h
      · exact hI.crash (Or.inr ⟨e, h⟩)
      · exact hpanic (Or.inr ⟨e, h⟩)

theorem Inv_setTask_exited {cep : String} {net : Tid → Network} {w : World}
    (hI : Inv cep net w) (t : Tid) (chan : Option ApiResponse)
    (hc : ∀ r, chan = some r → Mapped net r) :
    Inv cep net { w.setTask t .exited with chan := chan } := by
  refine ⟨?_, ?_, ?_, ?_, ?_⟩
  · show MainPrinted net (w.setTask t .exited).main
      ((w.setTask t .exited).trace.filter Event.byMain)
    rw [setTask_main, setTask_trace]
    exact hI.prints
  · intro h
    exact hI.invalidOnly (by simpa using h)
  · rintro r (h | ⟨u, h⟩)
    · exact hc r h
    · have h' : (w.setTask t .exited).task u = .atSelect r := by cases u <;> exact h
      rw [setTask_task] at h'
      by_cases hu : u = t
      · rw [if_pos hu] at h'
        cases h'
      · rw [if_neg hu] at h'
        exact hI.origin r (Or.inr ⟨u, h'⟩)
  · intro u url apiName nt h
    have h' : (w.setTask t .exited).task u = .fetching url apiName nt := by
      cases u <;> exact h
    rw [setTask_task] at h'
    by_cases hu : u = t
    · rw [if_pos hu] at h'
      cases h'
    · rw [if_neg hu] at h'
      exact hI.fetch u url apiName nt h'
  · rintro (h | ⟨e, h⟩)
    · exact hI.crash (Or.inl (by simpa using h))
    · exact hI.crash (Or.inr ⟨e, by simpa using h⟩)

/-- A move of `main` or of the clock: the goroutines and the crash flag stay,
the events added are prints of `main`. -/
theorem Inv_update {cep : String} {net : Tid → Network} {w w1 : World}
    (hI : Inv cep net w)
    (hb : w1.brasil = w.brasil) (hv : w1.viaCep = w.viaCep)
    (hcr : w1.crashed = w.crashed)
    (hchan : ∀ r, w1.chan = some r → Mapped net r)
    (evs : List Event) (htr : w1.trace = w.trace ++ evs)
    (hev : ∀ e ∈ evs, e ≠ .invalid ∧ ∀ x, e ≠ .panic x)
    (hp : MainPrinted net w1.main (w1.trace.filter Event.byMain)) :
    Inv cep net w1 := by
  have htask : ∀ t, w1.task t = w.task t := fun t => by
    cases t
    · exact hb
    · exact hv
  refine ⟨hp, ?_, ?_, ?_, ?_⟩
  · intro h
    rw [htr, List.mem_append] at h
    rcases h with h | h
    · exact hI.invalidOnly h
    · exact absurd rfl (hev _ h).1
  · rintro r (h | ⟨u, h⟩)
    · exact hchan r h
    · rw [htask] at h
      exact hI.origin r (Or.inr ⟨u, h⟩)
  · intro u url apiName nt h
    rw [htask] at h
    exact hI.fetch u url apiName nt h
  · rintro (h | ⟨x, h⟩)
    · rw [hcr] at h
      exact hI.crash (Or.inl h)
    · rw [htr, List.mem_append] at h
      rcases h with h | h
      · exact hI.crash (Or.inr ⟨x, h⟩)
      · exact absurd rfl ((hev _ h).2 x)

theorem Inv_step {cep : String} {net : Tid → Network} {w : World}
    (hI : Inv cep net w) (a : Action) : Inv cep net (step w a) := by
  have hpr := hI.prints
  rcases step_cases w a with h | ⟨hne, h | ⟨t, url, apiName, reply, ht, h⟩ |
    ⟨t, url, apiName, err, ht, _, h⟩ | ⟨t, result, ht, _, h⟩ | ⟨t, result, err, ht, _, h⟩ |
    ⟨result, hm, hr, h⟩ | ⟨err, hm, _, h⟩ | ⟨result, hm, h⟩ | ⟨result, hm, h⟩ |
    ⟨hm, h⟩ | ⟨hm, h⟩ | ⟨hm, h⟩⟩
  · rw [h]
    exact hI
  · rw [h]
    exact Inv_update hI rfl rfl rfl (fun r hr => hI.origin r (Or.inl hr)) []
      (List.append_nil _).symm (fun e he => (by simp at he)) hpr
  · rw [h]
    obtain ⟨_, hn, hnet⟩ := hI.fetch t url apiName _ ht
    rcases getCepData_cases url apiName reply with ⟨hx, hq⟩ | ⟨data, e, hrep, hu, hg, hs⟩ |
      ⟨data, r, hrep, hu, hg, hs⟩
    · apply Inv_afterSegment hI t _ (fun e he => (hq e he).1)
      · rintro (⟨e, he⟩ | ⟨e, he⟩)
        · rw [hx] at he
          cases he
        · exact absurd rfl ((hq _ he).2 e)
      · intro r hr
        rw [hx] at hr
        cases hr
    · have hP : Panics net := ⟨t, data, e, by rw [← hnet, hrep], hu, by rw [← hn]; exact hg⟩
      rw [hs]
      apply Inv_afterSegment hI t _ (by simp [Event.byMain]) (fun _ => hP)
      intro r hr
      cases hr
    · have hM : Mapped net r := ⟨t, data, by rw [← hnet, hrep], hu, by rw [← hn]; exact hg⟩
      rw [hs]
      apply Inv_afterSegment hI t _ (by simp [Event.byMain])
      · rintro (⟨e, he⟩ | ⟨e, he⟩)
        · cases he
        · simp at he
      · intro r' hr'
        cases hr'
        exact hM
  · rw [h]
    apply Inv_afterSegment hI t _ (by simp [getCepData, Event.byMain])
    · rintro (⟨e, he⟩ | ⟨e, he⟩)
      · cases he
      · simp [getCepData] at he
    · intro r hr
      cases hr
  · rw [h]
    apply Inv_setTask_exited hI
    intro r hr
    cases hr
    exact hI.origin _ (Or.inr ⟨t, ht⟩)
  · rw [h]
    have hs := Inv_setTask_exited hI t w.chan (fun r hr => hI.origin r (Or.inl hr))
    have e : ({ w.setTask t .exited with chan := w.chan } : World) = w.setTask t .exited := by
      cases t <;> rfl
    rw [← e]
    exact hs
  · rw [h]
    rw [hm] at hpr
    exact Inv_update hI rfl rfl rfl (fun r hr => (by cases hr)) []
      (List.append_nil _).symm (fun e he => (by simp at he))
      ⟨hpr, hI.origin result (Or.inl hr)⟩
  · rw [h]
    rw [hm] at hpr
    exact Inv_update hI rfl rfl rfl (fun r hr => hI.origin r (Or.inl hr)) []
      (List.append_nil _).symm (fun e he => (by simp at he)) hpr
  · rw [h]
    rw [hm] at hpr
    obtain ⟨hl, hM⟩ := hpr
    refine Inv_update hI rfl rfl rfl (fun r hr => hI.origin r (Or.inl hr))
      [.header result.API] rfl (by simp) ⟨?_, hM⟩
    show (w.trace ++ [Event.header result.API]).filter Event.byMain = _
    rw [List.filter_append, hl]
    rfl
  · rw [h]
    rw [hm] at hpr
    obtain ⟨hl, hM⟩ := hpr
    refine Inv_update hI rfl rfl rfl (fun r hr => hI.origin r (Or.inl hr))
      [.address result] rfl (by simp) (Or.inr ⟨result, hM, ?_⟩)
    show (w.trace ++ [Event.address result]).filter Event.byMain = _
    rw [List.filter_append, hl]
    rfl
  · rw [h]
    rw [hm] at hpr
    have hl : w.trace.filter Event.byMain = [.prompt] := hpr
    refine Inv_update hI rfl rfl rfl (fun r hr => hI.origin r (Or.inl hr))
      [.timeout] rfl (by simp) (Or.inl ?_)
    show (w.trace ++ [Event.timeout]).filter Event.byMain = _
    rw [List.filter_append, hl]
    rfl
  · rw [h]
    rw [hm] at hpr
    exact Inv_update hI rfl rfl rfl (fun r hr => hI.origin r (Or.inl hr)) []
      (List.append_nil _).symm (fun e he => (by simp at he)) hpr
  · rw [h]
    rw [hm] at hpr
    exact Inv_update hI rfl rfl rfl (fun r hr => hI.origin r (Or.inl hr)) []
      (List.append_nil _).symm (fun e he => (by simp at he)) (Or.inr hpr)

theorem Inv_runFrom {cep : String} {net : Tid → Network} (schedule : List Action) :
    ∀ {w : World}, Inv cep net w → Inv cep net (runFrom w schedule) := by
  induction schedule with
  | nil => exact fun h => h
  | cons a rest ih => exact fun h => ih (Inv_step h a)

theorem Inv_exec (cep : String) (net : Tid → Network) (schedule : List Action) :
    Inv cep net (exec cep net schedule) :=
  Inv_runFrom schedule (Inv_start cep net)
/-- From wherever `main` stands in a process that is not over, the moves of
`finish` make it return; no goroutine moves, so nothing panics. -/
theorem finish_returns (w : World) (h : w.ended = false) :
    (runFrom w finish).main = .returned ∧ (runFrom w finish).crashed = false := by
  obtain ⟨hm, hc⟩ := not_ended w h
  cases hx : w.ctx <;> cases hmain : w.main <;>
    first
    | exact absurd hmain hm
    | simp [runFrom, finish, step, World.ended, hx, hmain, hc, closeCtx]

/-- From the `select` of `main`, the moves of `finish` print the timeout
message and nothing else. -/
theorem finish_from_select (w : World) (hm : w.main = .atSelect) (hc : w.crashed = false) :
    (runFrom w finish).main = .returned ∧
    (runFrom w finish).trace = w.trace ++ [.timeout] := by
  cases hx : w.ctx <;>
    simp [runFrom, finish, step, World.ended, hx, hm, hc, closeCtx]

/-- The `select` of `main` is not entered again once it is left. -/
theorem step_main_ne_atSelect (w : World) (a : Action) (h : w.main ≠ .atSelect) :
    (step w a).main ≠ .atSelect := by
  rcases step_cases w a with e | ⟨_, e | ⟨t, _, _, _, _, e⟩ | ⟨t, _, _, _, _, _, e⟩ |
    ⟨t, _, _, _, e⟩ | ⟨t, _, _, _, _, e⟩ | ⟨_, hm, _, _⟩ | ⟨_, hm, _, _⟩ | ⟨_, _, e⟩ |
    ⟨_, _, e⟩ | ⟨_, e⟩ | ⟨_, e⟩ | ⟨_, e⟩⟩
  · rw [e]; exact h
  · rw [e]; exact h
  · rw [e, afterSegment_main]; exact h
  · rw [e, afterSegment_main]; exact h
  · rw [e]
    show (w.setTask t .exited).main ≠ .atSelect
    rw [setTask_main]; exact h
  · rw [e, setTask_main]; exact h
  · exact absurd hm h
  · exact absurd hm h
  · rw [e]; exact fun x => (by cases x)
  · rw [e]; exact fun x => (by cases x)
  · rw [e]; exact fun x => (by cases x)
  · rw [e]; exact fun x => (by cases x)
  · rw [e]; exact fun x => (by cases x)

theorem runFrom_main_ne_atSelect (schedule : List Action) :
    ∀ (w : World), w.main ≠ .atSelect → (runFrom w schedule).main ≠ .atSelect := by
  induction schedule with
  | nil => exact fun _ h => h
  | cons a rest ih => exact fun w h => ih (step w a) (step_main_ne_atSelect w a h)

/-- Outside its `select`, `main` takes neither branch of it. -/
theorem step_select_of_left (w : World) (h : w.main ≠ .atSelect) :
    step w .recv = w ∧ step w .expire = w := by
  constructor
  · rcases step_cases w .recv with e | ⟨hne, e⟩
    · exact e
    · unfold step
      rw [if_neg (by simp [hne])]
      cases hm : w.main <;> first | exact absurd hm h | rfl
  · unfold step
    split
    · rfl
    · cases hm : w.main <;> first | exact absurd hm h | rfl

/-- The receive branch of the `select` of `main` is not enabled on an empty
channel. -/
theorem step_recv_of_empty (w : World) (h : w.chan = none) : step w .recv = w := by
  unfold step
  split
  · rfl
  · cases hm : w.main <;> simp only [h]

/-- An address line in the trace is the mapping of a reply that passed every
check. -/
theorem address_mapped {cep : String} {net : Tid → Network} {w : World}
    (hI : Inv cep net w) (r : ApiResponse) (h : Event.address r ∈ w.trace) :
    Mapped net r := by
  have hm : Event.address r ∈ w.trace.filter Event.byMain :=
    List.mem_filter.mpr ⟨h, rfl⟩
  have hp := hI.prints
  cases hmain : w.main <;> rw [hmain] at hp <;> simp only [MainPrinted] at hp
  · rw [hp] at hm; simp at hm
  · rw [hp.1] at hm; simp at hm
  · rw [hp.1] at hm; simp at hm
  · rw [hp] at hm; simp at hm
  · rcases hp with hp | ⟨r', hM, hp⟩
    · rw [hp] at hm; simp at hm
    · rw [hp] at hm
      simp at hm
      rw [hm]; exact hM
  · rcases hp with hp | ⟨r', hM, hp⟩
    · rw [hp] at hm; simp at hm
    · rw [hp] at hm
      simp at hm
      rw [hm]; exact hM
  · rcases hp with hp | hp | ⟨r', hM, hp⟩
    · rw [hp] at hm; simp at hm
    · rw [hp] at hm; simp at hm
    · rw [hp] at hm
      simp at hm
      rw [hm]; exact hM

/-- What `main` has printed in any state: the prompt, then nothing, one of
the two messages, or one address block, possibly with only its first line. -/
theorem prints_shape {cep : String} {net : Tid → Network} {w : World}
    (hI : Inv cep net w) :
    w.trace.filter Event.byMain = [.prompt] ∨
    w.trace.filter Event.byMain = [.prompt, .invalid] ∨
    w.trace.filter Event.byMain = [.prompt, .timeout] ∨
    ∃ r, Mapped net r ∧
      (w.trace.filter Event.byMain = [.prompt, .header r.API] ∨
       w.trace.filter Event.byMain = [.prompt, .header r.API, .address r]) := by
  have hp := hI.prints
  cases hmain : w.main <;> rw [hmain] at hp <;> simp only [MainPrinted] at hp
  · exact Or.inl hp
  · exact Or.inl hp.1
  · exact Or.inr (Or.inr (Or.inr ⟨_, hp.2, Or.inl hp.1⟩))
  · exact Or.inl hp
  · rcases hp with hp | ⟨r, hM, hp⟩
    · exact Or.inr (Or.inr (Or.inl hp))
    · exact Or.inr (Or.inr (Or.inr ⟨r, hM, Or.inr hp⟩))
  · rcases hp with hp | ⟨r, hM, hp⟩
    · exact Or.inr (Or.inr (Or.inl hp))
    · exact Or.inr (Or.inr (Or.inr ⟨r, hM, Or.inr hp⟩))
  · rcases hp with hp | hp | ⟨r, hM, hp⟩
    · exact Or.inr (Or.inl hp)
    · exact Or.inr (Or.inr (Or.inl hp))
    · exact Or.inr (Or.inr (Or.inr ⟨r, hM, Or.inr hp⟩))

/-- For a valid postal code the invalid-input message is never printed. -/
theorem prints_ne_invalid {cep : String} {net : Tid → Network} {w : World}
    (hI : Inv cep net w) (hv : cepInvalid cep = false) :
    w.trace.filter Event.byMain ≠ [.prompt, .invalid] := by
  intro h
  have hm : Event.invalid ∈ w.trace.filter Event.byMain := by
    rw [h]
    simp
  rw [hI.invalidOnly (List.mem_filter.mp hm).1] at hv
  cases hv
/-! ## The claims on the sequential code -/

/-- C1: the check of line 32 rejects every postal code whose byte length is
not 8 or that holds a character outside `0`..`9`: the run then prints the
prompt and the invalid-input message, returns, starts no goroutine and sends
no request, whatever the providers and the schedule.  It accepts every string
of exactly 8 ASCII digits, for which `main` goes on to start both goroutines
on the two URLs.  The two cases are complementary. -/
theorem cep_check_accepts_exactly_eight_digits
    (cep : String) (net : Tid → Network) (schedule : List Action) :
    ((strLen cep ≠ 8 ∨ ∃ c ∈ cep.data, c < '0' ∨ '9' < c) →
      cepInvalid cep = true ∧
      (exec cep net schedule).trace = [.prompt, .invalid] ∧
      (exec cep net schedule).trace.filterMap Event.stdout =
        ["Digite o CEP: ", "CEP inválido!\n"] ∧
      (exec cep net schedule).main = .returned ∧
      (exec cep net schedule).brasil = .unspawned ∧
      (exec cep net schedule).viaCep = .unspawned ∧
      requests (exec cep net schedule).trace = []) ∧
    ((cep.data.length = 8 ∧ ∀ c ∈ cep.data, '0' ≤ c ∧ c ≤ '9') →
      cepInvalid cep = false ∧
      (start cep net).main = .atSelect ∧
      (start cep net).trace = [.prompt] ∧
      (start cep net).brasil =
        .fetching ("https://brasilapi.com.br/api/cep/v1/" ++ cep) "BrasilAPI"
          (net .brasil) ∧
      (start cep net).viaCep =
        .fetching ("http://viacep.com.br/ws/" ++ cep ++ "/json/") "ViaCEP"
          (net .viaCep)) ∧
    ((strLen cep ≠ 8 ∨ ∃ c ∈ cep.data, c < '0' ∨ '9' < c) ↔
      ¬ (cep.data.length = 8 ∧ ∀ c ∈ cep.data, '0' ≤ c ∧ c ≤ '9')) := by
  refine ⟨fun h => ?_, fun h => ?_, fun h hd => ?_, fun h => ?_⟩
  · have hv := cepInvalid_of_bad cep h
    have hs := start_of_invalid cep net hv
    have he : exec cep net schedule = start cep net := by
      unfold exec
      apply runFrom_of_ended
      rw [hs]
      rfl
    rw [he, hs]
    exact ⟨hv, rfl, rfl, rfl, rfl, rfl, rfl⟩
  · have hv := (cepInvalid_eq_false cep).mpr h
    rw [start_of_valid cep net hv]
    exact ⟨hv, rfl, rfl, rfl, rfl⟩
  · have hv := cepInvalid_of_bad cep h
    rw [(cepInvalid_eq_false cep).mpr hd] at hv
    cases hv
  · by_contra hn
    apply h
    push_neg at hn
    have hd : ∀ c ∈ cep.data, '0' ≤ c ∧ c ≤ '9' := hn.2
    refine ⟨?_, hd⟩
    rw [← strLen_of_digits cep hd]
    exact hn.1

/-- An invalid and a valid postal code for C1. -/
theorem cep_check_accepts_exactly_eight_digits_witness :
    ((strLen "ABC12345" ≠ 8 ∨ ∃ c ∈ "ABC12345".data, c < '0' ∨ '9' < c) ∧
      (exec "ABC12345" (fun _ => .hangs) [.deadline, .run .brasil, .expire]).trace
        = [.prompt, .invalid]) ∧
    (("01153000".data.length = 8 ∧ ∀ c ∈ "01153000".data, '0' ≤ c ∧ c ≤ '9') ∧
      cepInvalid "01153000" = false) :=
  ⟨⟨Or.inr ⟨'A', by decide, by decide⟩,
    ((cep_check_accepts_exactly_eight_digits "ABC12345" (fun _ => .hangs)
      [.deadline, .run .brasil, .expire]).1 (Or.inr ⟨'A', by decide, by decide⟩)).2.1⟩,
   ⟨by decide,
    ((cep_check_accepts_exactly_eight_digits "01153000" (fun _ => .hangs) []).2.1
      (by decide)).1⟩⟩

/-- C2: on an object whose four BrasilAPI keys `street`, `neighborhood`,
`city`, `state` are strings, `getApiResponse "BrasilAPI"` returns
`API = "BrasilAPI"` and those four values as `Logradouro`, `Bairro`, `Cidade`,
`Uf`; on an object whose four ViaCEP keys `logradouro`, `bairro`,
`localidade`, `uf` are strings, `getApiResponse "ViaCEP"` returns
`API = "ViaCEP"` and those four values.  The `API` field is the name passed
in. -/
theorem getApiResponse_maps_verbatim (data : GoMap) (a b c d : String) :
    (data.lookup "street" = some (.str a) →
      data.lookup "neighborhood" = some (.str b) →
      data.lookup "city" = some (.str c) →
      data.lookup "state" = some (.str d) →
      getApiResponse "BrasilAPI" data =
        .ok { API := "BrasilAPI", Logradouro := a, Bairro := b, Cidade := c, Uf := d }) ∧
    (data.lookup "logradouro" = some (.str a) →
      data.lookup "bairro" = some (.str b) →
      data.lookup "localidade" = some (.str c) →
      data.lookup "uf" = some (.str d) →
      getApiResponse "ViaCEP" data =
        .ok { API := "ViaCEP", Logradouro := a, Bairro := b, Cidade := c, Uf := d }) :=
  mapping_of_four_strings data a b c d

/-- The mapping of C2 on a BrasilAPI reply and on a ViaCEP reply. -/
theorem getApiResponse_maps_verbatim_witness :
    getApiResponse "BrasilAPI" sampleBrasil =
      .ok { API := "BrasilAPI", Logradouro := "Rua Vitorino Carmilo",
            Bairro := "Barra Funda", Cidade := "São Paulo", Uf := "SP" } ∧
    getApiResponse "ViaCEP" sampleViaCep =
      .ok { API := "ViaCEP", Logradouro := "Rua Vitorino Carmilo",
            Bairro := "Barra Funda", Cidade := "São Paulo", Uf := "SP" } :=
  ⟨(getApiResponse_maps_verbatim sampleBrasil _ _ _ _).1
      rfl rfl rfl rfl,
   (getApiResponse_maps_verbatim sampleViaCep _ _ _ _).2
      rfl rfl rfl rfl⟩

/-- C7: for a known provider name, `getApiResponse` panics on the type
assertion, returning no `ApiResponse`, if and only if one of that provider's
four mapped keys is absent or bound to a value that is not a string; when the
four are strings it returns an `ApiResponse`. -/
theorem getApiResponse_panics_iff (data : GoMap) :
    ((∃ e, getApiResponse "BrasilAPI" data = .error e) ↔
      ∃ k ∈ ["street", "neighborhood", "city", "state"], data.notAString k) ∧
    ((∃ e, getApiResponse "ViaCEP" data = .error e) ↔
      ∃ k ∈ ["logradouro", "bairro", "localidade", "uf"], data.notAString k) ∧
    ((∀ k ∈ ["street", "neighborhood", "city", "state"],
        ∃ s, data.lookup k = some (.str s)) →
      ∃ r, getApiResponse "BrasilAPI" data = .ok r) ∧
    ((∀ k ∈ ["logradouro", "bairro", "localidade", "uf"],
        ∃ s, data.lookup k = some (.str s)) →
      ∃ r, getApiResponse "ViaCEP" data = .ok r) := by
  refine ⟨?_, ?_, ?_, ?_⟩
  · rw [getApiResponse_brasil, bind4_error_iff]
    simp only [assertString_index_error_iff, List.mem_cons, List.mem_singleton,
      List.not_mem_nil, or_false, exists_eq_or_imp, exists_eq_left]
  · rw [getApiResponse_viaCep, bind4_error_iff]
    simp only [assertString_index_error_iff, List.mem_cons, List.mem_singleton,
      List.not_mem_nil, or_false, exists_eq_or_imp, exists_eq_left]
  · intro h
    obtain ⟨a, ha⟩ := h "street" (by simp)
    obtain ⟨b, hb⟩ := h "neighborhood" (by simp)
    obtain ⟨c, hc⟩ := h "city" (by simp)
    obtain ⟨d, hd⟩ := h "state" (by simp)
    exact ⟨_, (mapping_of_four_strings data a b c d).1 ha hb hc hd⟩
  · intro h
    obtain ⟨a, ha⟩ := h "logradouro" (by simp)
    obtain ⟨b, hb⟩ := h "bairro" (by simp)
    obtain ⟨c, hc⟩ := h "localidade" (by simp)
    obtain ⟨d, hd⟩ := h "uf" (by simp)
    exact ⟨_, (mapping_of_four_strings data a b c d).2 ha hb hc hd⟩

/-- The panic of C7 on a reply whose `street` is `null`, and the normal
return on a reply with four strings. -/
theorem getApiResponse_panics_iff_witness :
    (∃ e, getApiResponse "BrasilAPI" nullStreet = .error e) ∧
    (∃ r, getApiResponse "BrasilAPI" sampleBrasil = .ok r) :=
  ⟨(getApiResponse_panics_iff nullStreet).1.mpr
      ⟨"street", by simp, Or.inr ⟨.null, rfl, fun s hs => by cases hs⟩⟩,
   (getApiResponse_panics_iff sampleBrasil).2.2.1 (by
      intro k hk
      simp only [List.mem_cons, List.mem_singleton, List.not_mem_nil, or_false] at hk
      rcases hk with rfl | rfl | rfl | rfl
      · exact ⟨_, rfl⟩
      · exact ⟨_, rfl⟩
      · exact ⟨_, rfl⟩
      · exact ⟨_, rfl⟩)⟩

/-- C8: for every provider name other than `BrasilAPI` and `ViaCEP` and every
decoded object, `getApiResponse` returns without a panic an `ApiResponse`
whose five fields are the empty string. -/
theorem getApiResponse_unknown_provider (apiName : String) (data : GoMap)
    (hB : apiName ≠ "BrasilAPI") (hV : apiName ≠ "ViaCEP") :
    getApiResponse apiName data =
      .ok { API := "", Logradouro := "", Bairro := "", Cidade := "", Uf := "" } :=
  getApiResponse_other apiName data hB hV

/-- The empty mapping of C8 for the name `OpenCEP` on a reply whose `street`
is `null`. -/
theorem getApiResponse_unknown_provider_witness :
    getApiResponse "OpenCEP" nullStreet =
      .ok { API := "", Logradouro := "", Bairro := "", Cidade := "", Uf := "" } :=
  getApiResponse_unknown_provider "OpenCEP" nullStreet (by decide) (by decide)

/-- C10: for a known provider name, two decoded objects that give the same
value to `data[k]` for each of the provider's four mapped keys get the same
outcome from `getApiResponse`, the same `ApiResponse` or the same panic;
keys other than the four never change it. -/
theorem getApiResponse_depends_on_mapped_keys (d1 d2 : GoMap) :
    ((∀ k ∈ ["street", "neighborhood", "city", "state"], d1.index k = d2.index k) →
      getApiResponse "BrasilAPI" d1 = getApiResponse "BrasilAPI" d2) ∧
    ((∀ k ∈ ["logradouro", "bairro", "localidade", "uf"], d1.index k = d2.index k) →
      getApiResponse "ViaCEP" d1 = getApiResponse "ViaCEP" d2) := by
  constructor
  · intro h
    rw [getApiResponse_brasil, getApiResponse_brasil, h "street" (by simp),
      h "neighborhood" (by simp), h "city" (by simp), h "state" (by simp)]
  · intro h
    rw [getApiResponse_viaCep, getApiResponse_viaCep, h "logradouro" (by simp),
      h "bairro" (by simp), h "localidade" (by simp), h "uf" (by simp)]

/-- The BrasilAPI mapping of C10 on a reply that also holds the ViaCEP keys. -/
theorem getApiResponse_depends_on_mapped_keys_witness :
    getApiResponse "BrasilAPI" sampleBrasil = getApiResponse "BrasilAPI" bothSchemas :=
  (getApiResponse_depends_on_mapped_keys sampleBrasil bothSchemas).1 (by
    intro k hk
    simp only [List.mem_cons, List.mem_singleton, List.not_mem_nil, or_false] at hk
    rcases hk with rfl | rfl | rfl | rfl <;> rfl)

/-! ## The claims on the runs of the program -/

/-- C6: a decoded body with fewer than 4 keys never yields a result.  For
every provider name and every decoded object with 0 to 3 keys, lines 70-116
end at the `return` of line 112 after the diagnostic and the pause, whatever
the keys are and whatever `getApiResponse` would do on them; the goroutine
exits, the result channel is left as it was and nothing panics. -/
theorem undersized_body_yields_no_result (url apiName : String) (data : GoMap)
    (h : data.len < 4) :
    getCepData url apiName (.response 200 (.decoded data)) =
      ⟨[.request url, .diag ("Resposta inesperada do sevidor " ++ apiName ++ " \n"),
        .sleep 2], .returned⟩ ∧
    ∀ (w : World) (t : Tid), w.ended = false →
      w.task t = .fetching url apiName (.answers (.response 200 (.decoded data))) →
      (step w (.run t)).chan = w.chan ∧
      (step w (.run t)).crashed = false ∧
      (step w (.run t)).task t = .exited ∧
      (step w (.run t)).trace = w.trace ++
        [.request url, .diag ("Resposta inesperada do sevidor " ++ apiName ++ " \n"),
         .sleep 2] := by
  have hu : undersized data = true := by simpa [undersized] using h
  have hg : getCepData url apiName (.response 200 (.decoded data)) =
      ⟨[.request url, .diag ("Resposta inesperada do sevidor " ++ apiName ++ " \n"),
        .sleep 2], .returned⟩ := by
    simp [getCepData, hu]
  refine ⟨hg, fun w t hne ht => ?_⟩
  have hs : step w (.run t) =
      w.afterSegment t (getCepData url apiName (.response 200 (.decoded data))) := by
    unfold step
    rw [if_neg (by simp [hne])]
    simp only [ht]
  rw [hs, hg]
  refine ⟨afterSegment_chan _ _ _, ?_, ?_, afterSegment_trace _ _ _⟩
  · cases hc : (w.afterSegment t ⟨[.request url,
        .diag ("Resposta inesperada do sevidor " ++ apiName ++ " \n"), .sleep 2],
        .returned⟩).crashed with
    | false => rfl
    | true =>
      rcases (afterSegment_crashed _ _ _).mp hc with h1 | ⟨e, h1⟩
      · rw [(not_ended w hne).2] at h1
        cases h1
      · cases h1
  · rcases afterSegment_task_self w t ⟨[.request url,
        .diag ("Resposta inesperada do sevidor " ++ apiName ++ " \n"), .sleep 2],
        .returned⟩ with h1 | ⟨r, h1, _⟩
    · exact h1
    · cases h1

/-- The early return of C6 on a reply that holds three of the BrasilAPI keys
as strings. -/
theorem undersized_body_yields_no_result_witness :
    getCepData "u" "BrasilAPI" (.response 200 (.decoded threeKeys)) =
      ⟨[.request "u", .diag "Resposta inesperada do sevidor BrasilAPI \n", .sleep 2],
        .returned⟩ :=
  (undersized_body_yields_no_result "u" "BrasilAPI" threeKeys (by decide)).1

/-- C9: the check of line 109 looks at the number of keys only.  There is a
decoded object with four keys, none of them a mapped key of either provider,
that passes the check, so that `getApiResponse` is called on it and, finding
`nil` under the first mapped key, panics for both known providers; and two
objects with the same number of keys always get the same verdict. -/
theorem key_count_is_the_only_check :
    (∃ data : GoMap, 4 ≤ data.len ∧
      (∀ k ∈ ["street", "neighborhood", "city", "state",
          "logradouro", "bairro", "localidade", "uf"], data.lookup k = none) ∧
      undersized data = false ∧
      (∀ url, getCepData url "BrasilAPI" (.response 200 (.decoded data)) =
        ⟨[.request url, .panic ⟨.nil⟩], .panicked ⟨.nil⟩⟩) ∧
      (∀ url, getCepData url "ViaCEP" (.response 200 (.decoded data)) =
        ⟨[.request url, .panic ⟨.nil⟩], .panicked ⟨.nil⟩⟩)) ∧
    (∀ d1 d2 : GoMap, d1.len = d2.len → undersized d1 = undersized d2) := by
  refine ⟨⟨unrelatedKeys, by decide, ?_, rfl, fun url => rfl, fun url => rfl⟩, ?_⟩
  · intro k hk
    simp only [List.mem_cons, List.mem_singleton, List.not_mem_nil, or_false] at hk
    rcases hk with rfl | rfl | rfl | rfl | rfl | rfl | rfl | rfl <;> rfl
  · intro d1 d2 h
    unfold undersized
    rw [h]

/-- The verdict of C9 on two replies of four keys, one unrelated to the
providers and one well-formed. -/
theorem key_count_is_the_only_check_witness :
    unrelatedKeys.len = fourKeys.len ∧ undersized unrelatedKeys = undersized fourKeys :=
  ⟨rfl, key_count_is_the_only_check.2 unrelatedKeys fourKeys rfl⟩

/-- The run that lets `main` finish from wherever it stands. -/
theorem exec_finish (cep : String) (net : Tid → Network) (schedule : List Action)
    (h : (exec cep net schedule).ended = false) :
    (exec cep net (schedule ++ finish)).main = .returned ∧
    (exec cep net (schedule ++ finish)).crashed = false ∧
    (exec cep net (schedule ++ finish)).ended = true := by
  have he : exec cep net (schedule ++ finish) = runFrom (exec cep net schedule) finish :=
    runFrom_append _ _ _
  have hf := finish_returns _ h
  rw [he]
  refine ⟨hf.1, hf.2, ?_⟩
  unfold World.ended
  rw [hf.1]
  rfl

/-- The outcomes of a run in which `main` has returned. -/
theorem outcomes_of_returned {cep : String} {net : Tid → Network} {w : World}
    (hI : Inv cep net w) (hm : w.main = .returned) :
    (w.trace.filter Event.byMain = [.prompt, .invalid] ∧ outcomes w.trace = [.invalid]) ∨
    (w.trace.filter Event.byMain = [.prompt, .timeout] ∧ outcomes w.trace = [.timeout]) ∨
    ∃ r, Mapped net r ∧
      w.trace.filter Event.byMain = [.prompt, .header r.API, .address r] ∧
      outcomes w.trace = [.address r] := by
  have hp := hI.prints
  rw [hm] at hp
  rcases hp with hp | hp | ⟨r, hM, hp⟩
  · exact Or.inl ⟨hp, by rw [outcomes_eq_filter_byMain, hp]; rfl⟩
  · exact Or.inr (Or.inl ⟨hp, by rw [outcomes_eq_filter_byMain, hp]; rfl⟩)
  · exact Or.inr (Or.inr ⟨r, hM, hp, by rw [outcomes_eq_filter_byMain, hp]; rfl⟩)

/-- C3 as stated fails: on the valid postal code `01153000`, when BrasilAPI
answers well and ViaCEP answers with status 200 and a `logradouro` that is
not a string, the panic of the ViaCEP goroutine ends the process.  If it
comes while `main` waits in its `select`, neither the address block nor the
timeout message is printed; if it comes after `main` received the BrasilAPI
result and printed line 61, the process is over with the first line of the
block alone.  No later move changes either run. -/
theorem panic_cuts_output_short :
    cepInvalid "01153000" = false ∧
    (exec "01153000" viaCepMistyped [.run .viaCep]).ended = true ∧
    (exec "01153000" viaCepMistyped [.run .viaCep]).trace.filter Event.byMain =
      [.prompt] ∧
    outcomes (exec "01153000" viaCepMistyped [.run .viaCep]).trace = [] ∧
    outcomes (exec "01153000" viaCepMistyped
      [.run .viaCep, .run .brasil, .send .brasil, .recv, .print, .print,
       .deadline, .expire, .print, .deferred, .exit]).trace = [] ∧
    (exec "01153000" viaCepMistyped
      [.run .brasil, .send .brasil, .recv, .print, .run .viaCep]).ended = true ∧
    (exec "01153000" viaCepMistyped
      [.run .brasil, .send .brasil, .recv, .print, .run .viaCep]).crashed = true ∧
    (exec "01153000" viaCepMistyped
      [.run .brasil, .send .brasil, .recv, .print, .run .viaCep]).trace.filter
        Event.byMain = [.prompt, .header "BrasilAPI"] ∧
    (exec "01153000" viaCepMistyped
      [.run .brasil, .send .brasil, .recv, .print, .run .viaCep]).trace.filterMap
        Event.stdout = ["Digite o CEP: ", "Resposta mais rápida foi da BrasilAPI:\n"] ∧
    outcomes (exec "01153000" viaCepMistyped
      [.run .brasil, .send .brasil, .recv, .print, .run .viaCep]).trace = [] ∧
    outcomes (exec "01153000" viaCepMistyped
      [.run .brasil, .send .brasil, .recv, .print, .run .viaCep, .print,
       .deadline, .expire, .print, .deferred, .exit]).trace = [] := by
  decide

/-- C3, amended: for every valid postal code, every pair of provider
behaviours and every schedule, a run never holds more than one result.  What
`main` has printed after the prompt is nothing, the timeout message, or one
address block, whole or with its first line only, never both and never two
blocks, and the block is the mapping of a reply that passed every check.  The
`select` of `main` fires at most once: once `main` has left it neither branch
is enabled and `main` never comes back to it, so at most one `ApiResponse` is
taken from the channel.  In a run in which `main` has returned exactly one of
the timeout message and the whole address block has been printed, and as long
as the process is not over `main` can be brought to return. -/
theorem at_most_one_result (cep : String) (net : Tid → Network)
    (schedule : List Action) (hv : cepInvalid cep = false) :
    ((exec cep net schedule).trace.filter Event.byMain = [.prompt] ∨
      (exec cep net schedule).trace.filter Event.byMain = [.prompt, .timeout] ∨
      ∃ r, Mapped net r ∧
        ((exec cep net schedule).trace.filter Event.byMain =
            [.prompt, .header r.API] ∨
         (exec cep net schedule).trace.filter Event.byMain =
            [.prompt, .header r.API, .address r])) ∧
    (outcomes (exec cep net schedule).trace = [] ∨
      outcomes (exec cep net schedule).trace = [.timeout] ∨
      ∃ r, outcomes (exec cep net schedule).trace = [.address r]) ∧
    ((exec cep net schedule).main = .returned →
      ((exec cep net schedule).trace.filter Event.byMain = [.prompt, .timeout] ∧
        outcomes (exec cep net schedule).trace = [.timeout]) ∨
      ∃ r, (exec cep net schedule).trace.filter Event.byMain =
          [.prompt, .header r.API, .address r] ∧
        outcomes (exec cep net schedule).trace = [.address r]) ∧
    ((exec cep net schedule).main ≠ .atSelect →
      step (exec cep net schedule) .recv = exec cep net schedule ∧
      step (exec cep net schedule) .expire = exec cep net schedule ∧
      ∀ more, (exec cep net (schedule ++ more)).main ≠ .atSelect) ∧
    ((exec cep net schedule).ended = false →
      (exec cep net (schedule ++ finish)).main = .returned) := by
  have hI := Inv_exec cep net schedule
  have hshape : (exec cep net schedule).trace.filter Event.byMain = [.prompt] ∨
      (exec cep net schedule).trace.filter Event.byMain = [.prompt, .timeout] ∨
      ∃ r, Mapped net r ∧
        ((exec cep net schedule).trace.filter Event.byMain =
            [.prompt, .header r.API] ∨
         (exec cep net schedule).trace.filter Event.byMain =
            [.prompt, .header r.API, .address r]) := by
    rcases prints_shape hI with h | h | h | h
    · exact Or.inl h
    · exact absurd h (prints_ne_invalid hI hv)
    · exact Or.inr (Or.inl h)
    · exact Or.inr (Or.inr h)
  refine ⟨hshape, ?_, fun hm => ?_, fun hm => ?_, fun he => ?_⟩
  · rw [outcomes_eq_filter_byMain]
    rcases hshape with h | h | ⟨r, _, h | h⟩
    · rw [h]; exact Or.inl rfl
    · rw [h]; exact Or.inr (Or.inl rfl)
    · rw [h]; exact Or.inl rfl
    · rw [h]; exact Or.inr (Or.inr ⟨r, rfl⟩)
  · rcases outcomes_of_returned hI hm with ⟨h, _⟩ | h | ⟨r, _, h⟩
    · exact absurd h (prints_ne_invalid hI hv)
    · exact Or.inl h
    · exact Or.inr ⟨r, h⟩
  · refine ⟨(step_select_of_left _ hm).1, (step_select_of_left _ hm).2, fun more => ?_⟩
    have he : exec cep net (schedule ++ more) = runFrom (exec cep net schedule) more :=
      runFrom_append _ _ _
    rw [he]
    exact runFrom_main_ne_atSelect more _ hm
  · exact (exec_finish cep net schedule he).1

/-- Both providers complete a successful mapping: the ViaCEP goroutine fills
the channel, the BrasilAPI goroutine finds it full, `main` takes the ViaCEP
result, the BrasilAPI goroutine then puts its own result into the channel,
where it stays, and `main` prints the one address block of C3, from ViaCEP. -/
theorem at_most_one_result_witness :
    cepInvalid "01153000" = false ∧
    (exec "01153000" bothAnswer
      [.run .brasil, .run .viaCep, .send .viaCep, .send .brasil, .recv, .send .brasil,
       .print, .recv, .print, .recv, .deferred, .exit]).chan =
      some ⟨"BrasilAPI", "Rua Vitorino Carmilo", "Barra Funda", "São Paulo", "SP"⟩ ∧
    (exec "01153000" bothAnswer
      [.run .brasil, .run .viaCep, .send .viaCep, .send .brasil, .recv, .send .brasil,
       .print, .recv, .print, .recv, .deferred, .exit]).trace.filter Event.byMain =
      [.prompt, .header "ViaCEP",
       .address ⟨"ViaCEP", "Rua Vitorino Carmilo", "Barra Funda", "São Paulo", "SP"⟩] ∧
    (((exec "01153000" bothAnswer
      [.run .brasil, .run .viaCep, .send .viaCep, .send .brasil, .recv, .send .brasil,
       .print, .recv, .print, .recv, .deferred, .exit]).trace.filter Event.byMain =
        [.prompt, .timeout] ∧
      outcomes (exec "01153000" bothAnswer
        [.run .brasil, .run .viaCep, .send .viaCep, .send .brasil, .recv, .send .brasil,
         .print, .recv, .print, .recv, .deferred, .exit]).trace = [.timeout]) ∨
     ∃ r, (exec "01153000" bothAnswer
      [.run .brasil, .run .viaCep, .send .viaCep, .send .brasil, .recv, .send .brasil,
       .print, .recv, .print, .recv, .deferred, .exit]).trace.filter Event.byMain =
        [.prompt, .header r.API, .address r] ∧
      outcomes (exec "01153000" bothAnswer
        [.run .brasil, .run .viaCep, .send .viaCep, .send .brasil, .recv, .send .brasil,
         .print, .recv, .print, .recv, .deferred, .exit]).trace = [.address r]) :=
  ⟨by decide, by decide, by decide,
   (at_most_one_result "01153000" bothAnswer
      [.run .brasil, .run .viaCep, .send .viaCep, .send .brasil, .recv, .send .brasil,
       .print, .recv, .print, .recv, .deferred, .exit] (by decide)).2.2.1 (by decide)⟩

/-- C4 as stated fails: on the valid postal code `01153000`, when BrasilAPI
answers with status 200 and five keys of which `street` is `null`, the
goroutine panics in `getApiResponse` and the process is over with none of the
three outcomes printed; no later move changes that. -/
theorem panic_ends_run_without_outcome :
    cepInvalid "01153000" = false ∧
    4 ≤ nullStreet.len ∧
    (exec "01153000" brasilNullStreet [.run .brasil]).ended = true ∧
    (exec "01153000" brasilNullStreet [.run .brasil]).crashed = true ∧
    (exec "01153000" brasilNullStreet [.run .brasil]).main = .atSelect ∧
    outcomes (exec "01153000" brasilNullStreet [.run .brasil]).trace = [] ∧
    (exec "01153000" brasilNullStreet [.run .brasil]).trace =
      [.prompt, .request "https://brasilapi.com.br/api/cep/v1/01153000",
       .panic ⟨.nil⟩] ∧
    (exec "01153000" brasilNullStreet [.run .brasil]).trace.filterMap Event.stdout =
      ["Digite o CEP: "] ∧
    (exec "01153000" brasilNullStreet
      [.run .brasil, .deadline, .run .viaCep, .recv, .expire]).trace =
      [.prompt, .request "https://brasilapi.com.br/api/cep/v1/01153000",
       .panic ⟨.nil⟩] ∧
    (exec "01153000" brasilNullStreet
      [.run .brasil, .deadline, .run .viaCep, .recv, .expire, .print, .deferred,
       .exit]).trace =
      [.prompt, .request "https://brasilapi.com.br/api/cep/v1/01153000",
       .panic ⟨.nil⟩] := by
  decide

/-- C4, amended: for every input and every pair of provider responses none of
which makes the mapping panic, no run panics.  A run that is over has printed
exactly one of the invalid-input message, the timeout message and one address
block, the address being the mapping of a reply that passed every check, and
`main` has printed nothing but the prompt and that outcome.  In every state
`main` has printed the prompt and at most one outcome, whole or begun.  A run
that is not over can be brought to its end, with exactly one outcome; from the
`select` of `main` that outcome is the timeout message. -/
theorem one_of_three_outcomes (cep : String) (net : Tid → Network)
    (schedule : List Action) (h : ¬ Panics net) :
    (exec cep net schedule).crashed = false ∧
    (∀ e, Event.panic e ∉ (exec cep net schedule).trace) ∧
    ((exec cep net schedule).ended = true →
      outcomes (exec cep net schedule).trace = [.invalid] ∨
      outcomes (exec cep net schedule).trace = [.timeout] ∨
      ∃ r, outcomes (exec cep net schedule).trace = [.address r] ∧ Mapped net r) ∧
    ((exec cep net schedule).ended = true →
      (exec cep net schedule).trace.filter Event.byMain = [.prompt, .invalid] ∨
      (exec cep net schedule).trace.filter Event.byMain = [.prompt, .timeout] ∨
      ∃ r, (exec cep net schedule).trace.filter Event.byMain =
        [.prompt, .header r.API, .address r] ∧ Mapped net r) ∧
    ((exec cep net schedule).trace.filter Event.byMain = [.prompt] ∨
      (exec cep net schedule).trace.filter Event.byMain = [.prompt, .invalid] ∨
      (exec cep net schedule).trace.filter Event.byMain = [.prompt, .timeout] ∨
      ∃ r, Mapped net r ∧
        ((exec cep net schedule).trace.filter Event.byMain =
            [.prompt, .header r.API] ∨
         (exec cep net schedule).trace.filter Event.byMain =
            [.prompt, .header r.API, .address r])) ∧
    ((exec cep net schedule).main = .atSelect →
      (exec cep net schedule).trace.filter Event.byMain = [.prompt] ∧
      outcomes (exec cep net schedule).trace = [] ∧
      (exec cep net (schedule ++ finish)).ended = true ∧
      outcomes (exec cep net (schedule ++ finish)).trace = [.timeout]) ∧
    ((exec cep net schedule).ended = false →
      (exec cep net (schedule ++ finish)).ended = true ∧
      (outcomes (exec cep net (schedule ++ finish)).trace = [.timeout] ∨
        ∃ r, outcomes (exec cep net (schedule ++ finish)).trace = [.address r] ∧
          Mapped net r)) := by
  have hI := Inv_exec cep net schedule
  have hc : (exec cep net schedule).crashed = false := by
    cases hc : (exec cep net schedule).crashed with
    | false => rfl
    | true => exact absurd (hI.crash (Or.inl hc)) h
  have hret : (exec cep net schedule).ended = true →
      (exec cep net schedule).main = .returned := by
    intro he
    unfold World.ended at he
    rw [hc] at he
    simpa using he
  refine ⟨hc, fun e he => h (hI.crash (Or.inr ⟨e, he⟩)), fun he => ?_, fun he => ?_,
    prints_shape hI, fun hm => ?_, fun he => ?_⟩
  · rcases outcomes_of_returned hI (hret he) with ⟨_, h1⟩ | ⟨_, h1⟩ | ⟨r, hM, _, h1⟩
    · exact Or.inl h1
    · exact Or.inr (Or.inl h1)
    · exact Or.inr (Or.inr ⟨r, h1, hM⟩)
  · rcases outcomes_of_returned hI (hret he) with ⟨h1, _⟩ | ⟨h1, _⟩ | ⟨r, hM, h1, _⟩
    · exact Or.inl h1
    · exact Or.inr (Or.inl h1)
    · exact Or.inr (Or.inr ⟨r, h1, hM⟩)
  · have hp := hI.prints
    rw [hm] at hp
    have hp1 : (exec cep net schedule).trace.filter Event.byMain = [.prompt] := hp
    have hne : (exec cep net schedule).ended = false :=
      ended_eq_false _ (by rw [hm]; exact fun x => (by cases x)) hc
    have hf := finish_from_select _ hm hc
    have he : exec cep net (schedule ++ finish) = runFrom (exec cep net schedule) finish :=
      runFrom_append _ _ _
    refine ⟨hp1, by rw [outcomes_eq_filter_byMain, hp1]; rfl,
      (exec_finish cep net schedule hne).2.2, ?_⟩
    rw [outcomes_eq_filter_byMain, he, hf.2, List.filter_append, hp1]
    rfl
  · have hf := exec_finish cep net schedule he
    refine ⟨hf.2.2, ?_⟩
    have hI2 := Inv_exec cep net (schedule ++ finish)
    rcases outcomes_of_returned hI2 hf.1 with ⟨_, h1⟩ | ⟨_, h1⟩ | ⟨r, hM, _, h1⟩
    · exfalso
      have hmem : Event.invalid ∈ outcomes (exec cep net (schedule ++ finish)).trace := by
        rw [h1]
        exact List.mem_singleton.mpr rfl
      have hinv := hI2.invalidOnly (List.mem_filter.mp hmem).1
      have hs := start_of_invalid cep net hinv
      have hst : exec cep net schedule = start cep net := by
        unfold exec
        apply runFrom_of_ended
        rw [hs]
        rfl
      rw [hst, hs] at he
      cases he
    · exact Or.inl h1
    · exact Or.inr ⟨r, h1, hM⟩

/-- No reply of `bothAnswer` makes the mapping panic. -/
theorem bothAnswer_no_panic : ¬ Panics bothAnswer := by
  rintro ⟨t, data, e, hn, _, hg⟩
  cases t with
  | brasil =>
    have hd : data = sampleBrasil := by
      simp only [bothAnswer] at hn
      cases hn
      rfl
    subst hd
    have : getApiResponse "BrasilAPI" sampleBrasil = .ok _ := rfl
    rw [show Tid.brasil.apiName = "BrasilAPI" from rfl, this] at hg
    cases hg
  | viaCep =>
    have hd : data = sampleViaCep := by
      simp only [bothAnswer] at hn
      cases hn
      rfl
    subst hd
    have : getApiResponse "ViaCEP" sampleViaCep = .ok _ := rfl
    rw [show Tid.viaCep.apiName = "ViaCEP" from rfl, this] at hg
    cases hg

/-- The amended C4 on a run in which BrasilAPI wins the race and the ViaCEP
goroutine gives up after the deferred `cancel()`. -/
theorem one_of_three_outcomes_witness :
    ¬ Panics bothAnswer ∧
    (exec "01153000" bothAnswer
      [.run .brasil, .send .brasil, .recv, .print, .print, .deferred, .run .viaCep,
       .cancel .viaCep, .exit]).crashed = false ∧
    (exec "01153000" bothAnswer
      [.run .brasil, .send .brasil, .recv, .print, .print, .deferred, .run .viaCep,
       .cancel .viaCep, .exit]).trace.filter Event.byMain =
      [.prompt, .header "BrasilAPI",
       .address ⟨"BrasilAPI", "Rua Vitorino Carmilo", "Barra Funda", "São Paulo", "SP"⟩] ∧
    (outcomes (exec "01153000" bothAnswer
      [.run .brasil, .send .brasil, .recv, .print, .print, .deferred, .run .viaCep,
       .cancel .viaCep, .exit]).trace = [.invalid] ∨
     outcomes (exec "01153000" bothAnswer
      [.run .brasil, .send .brasil, .recv, .print, .print, .deferred, .run .viaCep,
       .cancel .viaCep, .exit]).trace = [.timeout] ∨
     ∃ r, outcomes (exec "01153000" bothAnswer
      [.run .brasil, .send .brasil, .recv, .print, .print, .deferred, .run .viaCep,
       .cancel .viaCep, .exit]).trace = [.address r] ∧ Mapped bothAnswer r) :=
  ⟨bothAnswer_no_panic,
   (one_of_three_outcomes "01153000" bothAnswer
      [.run .brasil, .send .brasil, .recv, .print, .print, .deferred, .run .viaCep,
       .cancel .viaCep, .exit] bothAnswer_no_panic).1,
   by decide,
   (one_of_three_outcomes "01153000" bothAnswer
      [.run .brasil, .send .brasil, .recv, .print, .print, .deferred, .run .viaCep,
       .cancel .viaCep, .exit] bothAnswer_no_panic).2.2.1 (by decide)⟩

/-- A provider that fails delivers neither a mapped result nor a panic. -/
theorem fails_not_answer {net : Tid → Network} (hf : ∀ t, (net t).fails = true)
    (t : Tid) (data : GoMap) (hn : net t = .answers (.response 200 (.decoded data)))
    (hu : undersized data = false) : False := by
  have h := hf t
  rw [hn] at h
  simp [Network.fails, hu] at h

/-- C5: for every valid postal code, when both providers fail or never reply
(request error, status other than 200, unreadable or undecodable body, fewer
than 4 keys, or no reply before the context is done), every run keeps the
result channel empty and panic-free, so the receive branch of the `select` of
`main` is never enabled and `main` never stands at line 61 or 62; a run in
which `main` has returned has printed the prompt and the timeout message and
nothing else, with no line of an address block; and while the process is not
over, the deadline makes the `select` of `main` take `<-ctx.Done()` and `main`
return having printed exactly that. -/
theorem both_fail_gives_timeout (cep : String) (net : Tid → Network)
    (schedule : List Action) (hv : cepInvalid cep = false)
    (hB : (net .brasil).fails = true) (hV : (net .viaCep).fails = true) :
    (exec cep net schedule).chan = none ∧
    (exec cep net schedule).crashed = false ∧
    (∀ r, Event.address r ∉ (exec cep net schedule).trace) ∧
    step (exec cep net schedule) .recv = exec cep net schedule ∧
    ((exec cep net schedule).main = .returned →
      (exec cep net schedule).trace.filter Event.byMain = [.prompt, .timeout]) ∧
    ((exec cep net schedule).main = .atSelect →
      (exec cep net schedule).trace.filter Event.byMain = [.prompt] ∧
      (exec cep net (schedule ++ finish)).main = .returned ∧
      (exec cep net (schedule ++ finish)).trace.filter Event.byMain =
        [.prompt, .timeout]) ∧
    ((exec cep net schedule).ended = false →
      (exec cep net (schedule ++ finish)).main = .returned ∧
      (exec cep net (schedule ++ finish)).trace.filter Event.byMain =
        [.prompt, .timeout]) ∧
    (∀ api, Event.header api ∉ (exec cep net schedule).trace) ∧
    (∀ r, (exec cep net schedule).main ≠ .line61 r ∧
      (exec cep net schedule).main ≠ .line62 r) := by
  have hf : ∀ t, (net t).fails = true := fun t => by cases t <;> assumption
  have hI := Inv_exec cep net schedule
  have hM : ∀ r, ¬ Mapped net r := fun r ⟨t, data, hn, hu, _⟩ =>
    fails_not_answer hf t data hn hu
  have hP : ¬ Panics net := fun ⟨t, data, _, hn, hu, _⟩ => fails_not_answer hf t data hn hu
  have hchan : (exec cep net schedule).chan = none := by
    cases hc : (exec cep net schedule).chan with
    | none => rfl
    | some r => exact absurd (hI.origin r (Or.inl hc)) (hM r)
  have hcr : (exec cep net schedule).crashed = false := by
    cases hc : (exec cep net schedule).crashed with
    | false => rfl
    | true => exact absurd (hI.crash (Or.inl hc)) hP
  have hret : ∀ s, (exec cep net s).main = .returned →
      (exec cep net s).trace.filter Event.byMain = [.prompt, .timeout] := by
    intro s hm
    rcases outcomes_of_returned (Inv_exec cep net s) hm with ⟨h, _⟩ | ⟨h, _⟩ | ⟨r, hr, _⟩
    · exact absurd h (prints_ne_invalid (Inv_exec cep net s) hv)
    · exact h
    · exact absurd hr (hM r)
  have hend : (exec cep net schedule).ended = false →
      (exec cep net (schedule ++ finish)).main = .returned ∧
      (exec cep net (schedule ++ finish)).trace.filter Event.byMain =
        [.prompt, .timeout] := fun he =>
    ⟨(exec_finish cep net schedule he).1, hret _ (exec_finish cep net schedule he).1⟩
  refine ⟨hchan, hcr, fun r hr => hM r (address_mapped hI r hr),
    step_recv_of_empty _ hchan, hret schedule, fun hm => ?_, hend, fun api hh => ?_,
    fun r => ⟨fun hm => ?_, fun hm => ?_⟩⟩
  · have hp := hI.prints
    rw [hm] at hp
    exact ⟨hp, hend (ended_eq_false _ (by rw [hm]; exact fun x => (by cases x)) hcr)⟩
  · have hmem : Event.header api ∈ (exec cep net schedule).trace.filter Event.byMain :=
      List.mem_filter.mpr ⟨hh, rfl⟩
    rcases prints_shape hI with h | h | h | ⟨r, hr, _⟩
    · rw [h] at hmem; simp at hmem
    · rw [h] at hmem; simp at hmem
    · rw [h] at hmem; simp at hmem
    · exact hM r hr
  · have hp := hI.prints
    rw [hm] at hp
    exact hM r hp.2
  · have hp := hI.prints
    rw [hm] at hp
    exact hM r hp.2

/-- The timeout of C5 when BrasilAPI answers with three keys and ViaCEP does
not answer before the deadline. -/
theorem both_fail_gives_timeout_witness :
    cepInvalid "01153000" = false ∧
    (bothFail .brasil).fails = true ∧ (bothFail .viaCep).fails = true ∧
    (exec "01153000" bothFail
      [.run .brasil, .run .viaCep, .recv, .deadline, .expire, .run .viaCep, .print,
       .deferred, .exit]).trace.filter Event.byMain = [.prompt, .timeout] ∧
    (exec "01153000" bothFail
      [.run .brasil, .run .viaCep, .recv, .deadline, .expire, .run .viaCep, .print,
       .deferred, .exit]).trace.filterMap Event.stdout =
      ["Digite o CEP: ", "Resposta inesperada do sevidor BrasilAPI \n",
       "Get \"http://viacep.com.br/ws/01153000/json/\": context deadline exceeded\n",
       "Erro: Tempo de resposta excedido. Timeout de 1 segundo.\n"] :=
  ⟨by decide, rfl, rfl,
   (both_fail_gives_timeout "01153000" bothFail
      [.run .brasil, .run .viaCep, .recv, .deadline, .expire, .run .viaCep, .print,
       .deferred, .exit] (by decide) rfl rfl).2.2.2.2.1 (by decide),
   by decide⟩
end CepRace
